import Mathlib

/-!
Verification of the nanobot agent core against its specification.

Shallow embedding of the Python sources:
  src/nanobot/agent/loop.py                  (AgentLoop)
  src/nanobot/channels/discord.py            (_split_message)
  src/nanobot/agent/tools/browser.py         (BrowserTool.execute)
  src/nanobot/agent/tools/playwright_client.py (PlaywrightClient.get_snapshot / get_snapshot_dom)

Pure functions are translated to Lean functions; effectful calls (LLM provider,
tool execution, browser clients, filesystem) are injected as explicit oracle
parameters so that each code path of the source is represented.
-/

namespace Nanobot

/-! ## JSON values and `json.dumps(..., sort_keys=True, ensure_ascii=False)`

`AgentLoop._track_tool_call` canonicalizes tool-call arguments with
`json.dumps(args, sort_keys=True, ensure_ascii=False)`.  We model Python JSON
values and the sorted-key serializer.  Python's `sorted` is a stable sort by
key; we model it with a stable insertion sort. -/

inductive JsonVal where
  | null
  | bool (b : Bool)
  | num (n : Int)
  | str (s : String)
  | arr (xs : List JsonVal)
  | obj (kvs : List (String × JsonVal))

/-- JSON string escaping for the characters relevant here (Python keeps
non-ASCII characters verbatim under `ensure_ascii=False`). -/
def escapeChar (c : Char) : String :=
  if c = '\\' then "\\\\"
  else if c = '"' then "\\\""
  else if c = '\n' then "\\n"
  else if c = '\t' then "\\t"
  else if c = '\r' then "\\r"
  else String.singleton c

def escapeStr (s : String) : String :=
  String.join (s.toList.map escapeChar)

/-- Lexicographic order on code points, i.e. Python's `<=` on strings
(restricted to the characters' Unicode scalar values, which is exactly what
Python compares). -/
def lexLe : List Char → List Char → Bool
  | [], _ => true
  | _ :: _, [] => false
  | a :: as, b :: bs =>
    if a.toNat < b.toNat then true
    else if b.toNat < a.toNat then false
    else lexLe as bs

def keyLe (a b : String) : Bool := lexLe a.data b.data

theorem lexLe_total : ∀ x y : List Char, lexLe x y = false → lexLe y x = true := by
  intro x
  induction x with
  | nil => intro y h; rw [lexLe] at h; exact absurd h (by simp)
  | cons a as ih =>
    intro y h
    match y with
    | [] => rw [lexLe]
    | b :: bs =>
      rw [lexLe] at h ⊢
      by_cases h₁ : a.toNat < b.toNat
      · rw [if_pos h₁] at h; exact absurd h (by simp)
      · by_cases h₂ : b.toNat < a.toNat
        · rw [if_pos h₂]
        · rw [if_neg h₁, if_neg h₂] at h
          rw [if_neg h₂, if_neg h₁]
          exact ih bs h

theorem lexLe_trans : ∀ x y z : List Char,
    lexLe x y = true → lexLe y z = true → lexLe x z = true := by
  intro x
  induction x with
  | nil => intro y z _ _; rw [lexLe]
  | cons a as ih =>
    intro y z hxy hyz
    match y, z with
    | [], _ => rw [lexLe] at hxy; exact absurd hxy (by simp)
    | _ :: _, [] => rw [lexLe] at hyz; exact absurd hyz (by simp)
    | b :: bs, c :: cs =>
      rw [lexLe] at hxy hyz ⊢
      rcases Nat.lt_trichotomy a.toNat b.toNat with hab | hab | hab
      · rcases Nat.lt_trichotomy b.toNat c.toNat with hbc | hbc | hbc
        · rw [if_pos (by omega)]
        · rw [if_pos (by omega)]
        · rw [if_neg (by omega), if_pos hbc] at hyz
          exact absurd hyz (by simp)
      · rcases Nat.lt_trichotomy b.toNat c.toNat with hbc | hbc | hbc
        · rw [if_pos (by omega)]
        · rw [if_neg (by omega), if_neg (by omega)] at hxy hyz
          rw [if_neg (by omega), if_neg (by omega)]
          exact ih bs cs hxy hyz
        · rw [if_neg (by omega), if_pos hbc] at hyz
          exact absurd hyz (by simp)
      · rw [if_neg (by omega), if_pos hab] at hxy
        exact absurd hxy (by simp)

theorem char_toNat_inj {a b : Char} (h : a.toNat = b.toNat) : a = b :=
  Char.ext (UInt32.ext h)

theorem lexLe_antisymm : ∀ x y : List Char,
    lexLe x y = true → lexLe y x = true → x = y := by
  intro x
  induction x with
  | nil =>
    intro y _ hyx
    match y with
    | [] => rfl
    | b :: bs => rw [lexLe] at hyx; exact absurd hyx (by simp)
  | cons a as ih =>
    intro y hxy hyx
    match y with
    | [] => rw [lexLe] at hxy; exact absurd hxy (by simp)
    | b :: bs =>
      rw [lexLe] at hxy hyx
      rcases Nat.lt_trichotomy a.toNat b.toNat with h | h | h
      · rw [if_neg (by omega), if_pos h] at hyx
        exact absurd hyx (by simp)
      · rw [if_neg (by omega), if_neg (by omega)] at hxy hyx
        rw [char_toNat_inj h, ih bs hxy hyx]
      · rw [if_pos h] at hxy
        rw [if_neg (by omega)] at hxy
        exact absurd hxy (by simp)

theorem string_eq_of_data {s₁ s₂ : String} (h : s₁.data = s₂.data) : s₁ = s₂ := by
  cases s₁
  cases s₂
  exact congrArg String.mk h

theorem keyLe_antisymm {a b : String} (h₁ : keyLe a b = true) (h₂ : keyLe b a = true) :
    a = b :=
  string_eq_of_data (lexLe_antisymm _ _ h₁ h₂)

/-- Stable insertion (by key) used to model Python's stable `sorted` on
`dict.items()`: an element passes items with a strictly smaller key and is
placed before items with an equal or larger key. -/
def insertByKey (x : String × JsonVal) : List (String × JsonVal) → List (String × JsonVal)
  | [] => [x]
  | y :: ys => if keyLe x.1 y.1 then x :: y :: ys else y :: insertByKey x ys

def sortByKey : List (String × JsonVal) → List (String × JsonVal)
  | [] => []
  | x :: xs => insertByKey x (sortByKey xs)

theorem mem_insertByKey {x y : String × JsonVal} {l : List (String × JsonVal)}
    (h : y ∈ insertByKey x l) : y = x ∨ y ∈ l := by
  induction l with
  | nil =>
    rw [insertByKey] at h
    exact Or.inl (List.mem_singleton.mp h)
  | cons a t ih =>
    rw [insertByKey] at h
    split at h
    · rcases List.mem_cons.mp h with h | h
      · exact Or.inl h
      · exact Or.inr h
    · rcases List.mem_cons.mp h with h | h
      · exact Or.inr (List.mem_cons.mpr (Or.inl h))
      · rcases ih h with h | h
        · exact Or.inl h
        · exact Or.inr (List.mem_cons.mpr (Or.inr h))

theorem mem_sortByKey {y : String × JsonVal} {l : List (String × JsonVal)}
    (h : y ∈ sortByKey l) : y ∈ l := by
  induction l with
  | nil => exact absurd h (List.not_mem_nil y)
  | cons a t ih =>
    rw [sortByKey] at h
    rcases mem_insertByKey h with h | h
    · exact List.mem_cons.mpr (Or.inl h)
    · exact List.mem_cons.mpr (Or.inr (ih h))

/- Structural size of a JSON value (counting every node), used as fuel for
the serializer so that it is plain structural recursion. -/
mutual
def jsize : JsonVal → Nat
  | .null | .bool _ | .num _ | .str _ => 1
  | .arr xs => 1 + jsizeL xs
  | .obj kvs => 1 + jsizeP kvs
def jsizeL : List JsonVal → Nat
  | [] => 0
  | x :: xs => jsize x + jsizeL xs
def jsizeP : List (String × JsonVal) → Nat
  | [] => 0
  | (_, v) :: kvs => jsize v + jsizeP kvs
end

/-- Fuel-based worker for the serializer: structural recursion on the fuel so
that the function reduces inside the kernel.  `dumps` below always supplies
enough fuel (`jsize` of the value strictly dominates that of every
sub-value, including after the key sort, which merely permutes the items). -/
def dumpsF : Nat → JsonVal → String
  | 0, _ => ""
  | _ + 1, .null => "null"
  | _ + 1, .bool true => "true"
  | _ + 1, .bool false => "false"
  | _ + 1, .num n => toString n
  | _ + 1, .str s => "\"" ++ escapeStr s ++ "\""
  | fuel + 1, .arr xs =>
      "[" ++ String.intercalate ", " (xs.map fun x => dumpsF fuel x) ++ "]"
  | fuel + 1, .obj kvs =>
      "\x7b" ++ String.intercalate ", "
        ((sortByKey kvs).map fun kv =>
          "\"" ++ escapeStr kv.1 ++ "\": " ++ dumpsF fuel kv.2) ++ "\x7d"

/-- `json.dumps(v, sort_keys=True, ensure_ascii=False)`: objects are rendered
with their items sorted by key; separators are the defaults `", "` and `": "`. -/
def dumps (v : JsonVal) : String :=
  dumpsF (jsize v) v

theorem insertByKey_perm (x : String × JsonVal) (l : List (String × JsonVal)) :
    (insertByKey x l).Perm (x :: l) := by
  induction l with
  | nil => rw [insertByKey]
  | cons a t ih =>
    rw [insertByKey]
    split
    · exact List.Perm.refl _
    · exact ((ih.cons a).trans (List.Perm.swap x a t)).symm.symm

theorem sortByKey_perm (l : List (String × JsonVal)) : (sortByKey l).Perm l := by
  induction l with
  | nil => rw [sortByKey]
  | cons a t ih =>
    rw [sortByKey]
    exact (insertByKey_perm a (sortByKey t)).trans (ih.cons a)

theorem keyLe_total {a b : String} (h : keyLe a b = false) : keyLe b a = true :=
  lexLe_total _ _ h

theorem keyLe_trans {a b c : String} (h₁ : keyLe a b = true) (h₂ : keyLe b c = true) :
    keyLe a c = true :=
  lexLe_trans _ _ _ h₁ h₂

/-- Keys are pairwise `≤` along the output of the insertion sort. -/
def KeySorted (l : List (String × JsonVal)) : Prop :=
  l.Pairwise fun a b => keyLe a.1 b.1 = true

theorem keySorted_insertByKey {x : String × JsonVal} {l : List (String × JsonVal)}
    (h : KeySorted l) : KeySorted (insertByKey x l) := by
  induction l with
  | nil =>
    rw [insertByKey]
    exact List.pairwise_singleton _ x
  | cons a t ih =>
    rw [insertByKey]
    rcases List.pairwise_cons.mp h with ⟨ha, ht⟩
    split
    · rename_i hle
      refine List.pairwise_cons.mpr ⟨?_, h⟩
      intro b hb
      rcases List.mem_cons.mp hb with rfl | hb
      · exact hle
      · exact keyLe_trans hle (ha b hb)
    · rename_i hgt
      refine List.pairwise_cons.mpr ⟨?_, ih ht⟩
      intro b hb
      rcases mem_insertByKey hb with rfl | hb
      · exact keyLe_total (Bool.eq_false_iff.mpr hgt)
      · exact ha b hb

theorem keySorted_sortByKey (l : List (String × JsonVal)) : KeySorted (sortByKey l) := by
  induction l with
  | nil =>
    rw [sortByKey]
    exact List.Pairwise.nil
  | cons a t ih =>
    rw [sortByKey]
    exact keySorted_insertByKey ih

/-- Two key-sorted lists that are permutations of one another and whose keys are
duplicate-free are equal (the sorted rendering of a dict is order-independent). -/
theorem keySorted_perm_eq :
    ∀ (l₁ l₂ : List (String × JsonVal)), KeySorted l₁ → KeySorted l₂ →
      (l₁.map Prod.fst).Nodup → l₁.Perm l₂ → l₁ = l₂ := by
  intro l₁
  induction l₁ with
  | nil =>
    intro l₂ _ _ _ hp
    exact (List.Perm.nil_eq hp).symm.symm
  | cons a t₁ ih =>
    intro l₂ hs₁ hs₂ hnd hp
    match l₂ with
    | [] => exact absurd hp.symm (by simp)
    | b :: t₂ =>
      have hab : a = b := by
        by_contra hne
        have ha2 : a ∈ b :: t₂ := hp.mem_iff.mp (List.mem_cons_self a t₁)
        have hb1 : b ∈ a :: t₁ := hp.mem_iff.mpr (List.mem_cons_self b t₂)
        have hat₂ : a ∈ t₂ := by
          rcases List.mem_cons.mp ha2 with h | h
          · exact absurd h hne
          · exact h
        have hbt₁ : b ∈ t₁ := by
          rcases List.mem_cons.mp hb1 with h | h
          · exact absurd h.symm hne
          · exact h
        have h₁ : keyLe a.1 b.1 = true := (List.pairwise_cons.mp hs₁).1 b hbt₁
        have h₂ : keyLe b.1 a.1 = true := (List.pairwise_cons.mp hs₂).1 a hat₂
        have hkey : a.1 = b.1 := keyLe_antisymm h₁ h₂
        have : a.1 ∈ t₁.map Prod.fst := by
          rw [hkey]
          exact List.mem_map.mpr ⟨b, hbt₁, rfl⟩
        exact (List.nodup_cons.mp hnd).1 this
      subst hab
      have ht : t₁ = t₂ :=
        ih t₂ (List.pairwise_cons.mp hs₁).2 (List.pairwise_cons.mp hs₂).2
          (List.nodup_cons.mp hnd).2 (hp.cons_inv)
      rw [ht]

theorem sortByKey_eq_of_perm {l₁ l₂ : List (String × JsonVal)}
    (hp : l₁.Perm l₂) (hnd : (l₁.map Prod.fst).Nodup) :
    sortByKey l₁ = sortByKey l₂ := by
  refine keySorted_perm_eq _ _ (keySorted_sortByKey l₁) (keySorted_sortByKey l₂) ?_ ?_
  · exact (((sortByKey_perm l₁).map Prod.fst).nodup_iff).mpr hnd
  · exact (sortByKey_perm l₁).trans (hp.trans (sortByKey_perm l₂).symm)

/-- The call key recorded by `AgentLoop._track_tool_call`:
`(tool_name, json.dumps(args, sort_keys=True, ensure_ascii=False))`. -/
def callKeyOf (name : String) (args : JsonVal) : String × String :=
  (name, dumps args)

theorem jsizeP_eq_of_perm {l₁ l₂ : List (String × JsonVal)} (hp : l₁.Perm l₂) :
    jsizeP l₁ = jsizeP l₂ := by
  induction hp with
  | nil => rfl
  | cons x _ ih =>
    obtain ⟨k, v⟩ := x
    simp only [jsizeP]
    omega
  | swap x y l =>
    obtain ⟨k₁, v₁⟩ := x
    obtain ⟨k₂, v₂⟩ := y
    simp only [jsizeP]
    omega
  | trans _ _ ih₁ ih₂ => omega

theorem dumps_obj_eq_of_perm {kvs₁ kvs₂ : List (String × JsonVal)}
    (hp : kvs₁.Perm kvs₂) (hnd : (kvs₁.map Prod.fst).Nodup) :
    dumps (.obj kvs₁) = dumps (.obj kvs₂) := by
  unfold dumps
  have hs : jsize (JsonVal.obj kvs₁) = jsize (JsonVal.obj kvs₂) := by
    simp only [jsize, jsizeP_eq_of_perm hp]
  rw [hs]
  cases jsize (JsonVal.obj kvs₂) with
  | zero => rfl
  | succ n =>
    simp only [dumpsF]
    rw [sortByKey_eq_of_perm hp hnd]

/-! ## `AgentLoop._strip_think`

`re.sub(r"<think>[\s\S]*?</think>", "", text).strip() or None`: non-greedy
removal of every `<think>…</think>` block, then strip, with empty mapped to
`None`.  Modelled by a scanner over the character list: repeatedly find the
first opening tag, then the first closing tag after it, and drop the span. -/

/-- Split `l` at the first occurrence of the (non-empty) pattern `pat`,
returning the part before the match and the part after it. -/
def findSub (pat : List Char) : List Char → Option (List Char × List Char)
  | [] => none
  | c :: rest =>
    if pat.isPrefixOf (c :: rest) then some ([], (c :: rest).drop pat.length)
    else (findSub pat rest).map fun p => (c :: p.1, p.2)

/-- Python whitespace for `strip`/`lstrip` (the ASCII whitespace characters;
Python also strips other Unicode space characters, which do not occur in the
strings handled here). -/
def isPyWS (c : Char) : Bool :=
  c == ' ' || c == '\t' || c == '\n' || c == '\r' || c == '\x0b' || c == '\x0c'

/-- Python `str.strip()`. -/
def pyStrip (s : String) : String :=
  String.mk (((s.data.dropWhile isPyWS).reverse.dropWhile isPyWS).reverse)

/-- Python `str.lstrip()`. -/
def pyLstrip (s : String) : String :=
  String.mk (s.data.dropWhile isPyWS)

/-- Python `str.lower()` (ASCII case mapping; the indicator keywords compared
with it are ASCII or Chinese, for which this agrees with Python). -/
def pyLower (s : String) : String :=
  String.mk (s.data.map Char.toLower)

/-- Python `str.upper()` (ASCII case mapping). -/
def pyUpper (s : String) : String :=
  String.mk (s.data.map Char.toUpper)

/-- Python slicing `s[:n]` (by code point, like Python). -/
def pyTake (n : Nat) (s : String) : String :=
  String.mk (s.data.take n)

def stripThinkAux : Nat → List Char → List Char
  | 0, l => l
  | fuel + 1, l =>
    match findSub "<think>".toList l with
    | none => l
    | some (before, rest) =>
      match findSub "</think>".toList rest with
      | none => l
      | some (_, after) => before ++ stripThinkAux fuel after

/-- `AgentLoop._strip_think`. -/
def stripThink (text : Option String) : Option String :=
  match text with
  | none => none
  | some s =>
    if s = "" then none
    else
      let r := pyStrip (String.mk (stripThinkAux s.data.length s.data))
      if r = "" then none else some r

/-! ## `AgentLoop._run_agent_loop` and loop detection

The iteration loop is modelled over an oracle provider (`Nat → LLMResponse`,
the response to the i-th LLM call) and an oracle tool executor.  The model
records a chronological event trace so that the theorems can speak about what
was called, executed and appended, and in which order. -/

structure ToolCall where
  id : String
  name : String
  arguments : JsonVal

structure LLMResponse where
  content : Option String
  toolCalls : List ToolCall

/-- `response.has_tool_calls` is true iff the tool-call list is non-empty. -/
def LLMResponse.hasToolCalls (r : LLMResponse) : Bool :=
  !r.toolCalls.isEmpty

abbrev CallKey := String × String

inductive Ev where
  | llm (i : Nat)
  | tracked (k : CallKey)
  | loopDetected (k : CallKey)
  | executed (k : CallKey)
  | toolResult (name content : String)
deriving DecidableEq

/-- The history update of `AgentLoop._track_tool_call`: extend the history when
the new call equals the last one, otherwise reset it to the new call alone. -/
def trackStep (history : List CallKey) (k : CallKey) : List CallKey :=
  if history.getLast? = some k then history ++ [k] else [k]

/-- The detection test of `AgentLoop._track_tool_call`
(`self._loop_detection_max = 3`): at least 3 entries, all equal to the first. -/
def detectOf (h : List CallKey) : Bool :=
  decide (3 ≤ h.length) &&
    (match h with
     | [] => false
     | k0 :: _ => h.all fun k => k == k0)

/-- `AgentLoop._track_tool_call`: returns the updated history and whether a
loop was detected. -/
def trackToolCall (history : List CallKey) (name : String) (args : JsonVal) :
    List CallKey × Bool :=
  let callKey := callKeyOf name args
  let h := trackStep history callKey
  (h, detectOf h)

/-- Substring test (Python `sub in s`). -/
def listContainsSub (pat : List Char) : List Char → Bool
  | [] => pat.isEmpty
  | c :: rest => pat.isPrefixOf (c :: rest) || listContainsSub pat rest

def strContains (s sub : String) : Bool :=
  listContainsSub sub.toList s.toList

/-- The failure indicators of the tool-result verification step (the last
three are the source's Chinese equivalents). -/
def failureIndicators : List String :=
  ["failed", "error", "exception", "timeout", "not found", "permission denied",
   "无法", "错误", "失败"]

def isFailure (result : String) : Bool :=
  failureIndicators.any fun ind => strContains (pyLower result) ind

def failureHint (result : String) : String :=
  "\n\n[TOOL RESULT VERIFICATION] The tool returned an error/failure: " ++
    pyTake 200 result ++
    ". You MUST either: (1) Try a different approach, or (2) Admit the failure to the user. Do NOT pretend the tool succeeded!"

/-- The loop-detected message (`self._loop_detection_max = 3`). -/
def loopMessage (name : String) : String :=
  "[LOOP DETECTED] Detected 3 consecutive identical tool calls: " ++ name ++
    " with identical arguments. Stopping to prevent infinite loop. Please try a different approach."

structure RunState where
  history : List CallKey
  toolsUsed : List String
  events : List Ev
deriving DecidableEq

/-- The `for tool_call in response.tool_calls` body of `_run_agent_loop`:
record the tool, run loop detection, and either abort (append the
loop-detected tool result and set the final content) or execute the tool and
append its (possibly failure-annotated) result. -/
def processToolCalls (exec : String → JsonVal → String) :
    List ToolCall → RunState → RunState × Option String
  | [], st => (st, none)
  | tc :: rest, st =>
    let used := st.toolsUsed ++ [tc.name]
    let k := callKeyOf tc.name tc.arguments
    let (h, detected) := trackToolCall st.history tc.name tc.arguments
    if detected then
      ({ history := h, toolsUsed := used,
         events := st.events ++
           [Ev.tracked k, Ev.loopDetected k, Ev.toolResult tc.name (loopMessage tc.name)] },
       some (loopMessage tc.name))
    else
      let result := exec tc.name tc.arguments
      let content := if isFailure result then result ++ failureHint result else result
      processToolCalls exec rest
        { history := h, toolsUsed := used,
          events := st.events ++ [Ev.tracked k, Ev.executed k, Ev.toolResult tc.name content] }

/-- The `while iteration < self.max_iterations` loop of `_run_agent_loop`.
`fuel` is the number of remaining iterations (`max_iterations - iter`), `iter`
the number of LLM calls already made (so the Python `iteration` counter equals
`iter + 1` inside the body). -/
def runFrom (provider : Nat → LLMResponse) (exec : String → JsonVal → String)
    (forced : Bool) : Nat → Nat → RunState → Option String × RunState
  | 0, _, st => (none, st)
  | fuel + 1, iter, st =>
    let response := provider iter
    let st1 : RunState := { st with events := st.events ++ [Ev.llm iter] }
    match response.toolCalls with
    | [] =>
      let finalContent := stripThink response.content
      let maxRetries := if forced then 5 else 1
      if st1.toolsUsed.isEmpty && finalContent.isSome && decide (iter + 1 < maxRetries) then
        runFrom provider exec forced fuel (iter + 1) st1
      else
        (finalContent, st1)
    | tc :: rest =>
      let (st2, fin) := processToolCalls exec (tc :: rest) st1
      match fin with
      | some m => (some m, st2)
      | none => runFrom provider exec forced fuel (iter + 1) st2

/-- `AgentLoop._reset_tool_tracking`: the tracking history is cleared at the
start of each user request (whatever it previously contained). -/
def resetToolTracking (_priorHistory : List CallKey) : List CallKey := []

/-- `AgentLoop._run_agent_loop`: reset the tracking history, then run the
iteration loop with `max_iterations` iterations available.  `priorHistory` is
the object-level `_tool_call_history` left over from a previous request. -/
def runAgentLoop (priorHistory : List CallKey) (provider : Nat → LLMResponse)
    (exec : String → JsonVal → String) (forced : Bool) (maxIterations : Nat) :
    Option String × RunState :=
  runFrom provider exec forced maxIterations 0
    { history := resetToolTracking priorHistory, toolsUsed := [], events := [] }

/-! Observations over the event trace. -/

/-- The calls that reached `_track_tool_call`, in order. -/
def trackedOf (events : List Ev) : List CallKey :=
  events.filterMap fun e =>
    match e with
    | .tracked k => some k
    | _ => none

/-- The number of LLM calls recorded in the trace. -/
def llmCount (events : List Ev) : Nat :=
  events.countP fun e =>
    match e with
    | .llm _ => true
    | _ => false

/-- Three consecutive identical entries somewhere in the list. -/
def hasTriple (l : List CallKey) : Prop :=
  ∃ pre k post, l = pre ++ k :: k :: k :: post

/-- The tracking history obtained by feeding a sequence of call keys through
`trackStep`, starting from the reset (empty) history. -/
def histAfter (tr : List CallKey) : List CallKey :=
  tr.foldl trackStep []

theorem histAfter_append_one (tr : List CallKey) (k : CallKey) :
    histAfter (tr ++ [k]) = trackStep (histAfter tr) k := by
  simp [histAfter, List.foldl_append]

/-- `trackStep` maps a constant run either to a longer run of the same key
(when the new call matches) or to the singleton run of the new key. -/
theorem trackStep_replicate (n : Nat) (k₀ k : CallKey) :
    (k₀ = k ∧ 1 ≤ n ∧ trackStep (List.replicate n k₀) k = List.replicate (n + 1) k) ∨
      trackStep (List.replicate n k₀) k = List.replicate 1 k := by
  rw [trackStep]
  cases n with
  | zero =>
    right
    simp
  | succ m =>
    by_cases hk : k₀ = k
    · subst hk
      left
      refine ⟨rfl, by omega, ?_⟩
      rw [if_pos (by rw [List.replicate_succ', List.getLast?_concat])]
      rw [List.replicate_succ' (m + 1)]
    · right
      rw [if_neg (by
        rw [List.replicate_succ', List.getLast?_concat]
        exact fun h => hk (Option.some.inj h))]
      rfl

/-- The history is always a constant run. -/
theorem histAfter_isRun (tr : List CallKey) :
    ∃ n k, histAfter tr = List.replicate n k := by
  induction tr using List.reverseRecOn with
  | nil => exact ⟨0, default, rfl⟩
  | append_singleton tr k ih =>
    obtain ⟨n, k₀, hn⟩ := ih
    rw [histAfter_append_one, hn]
    rcases trackStep_replicate n k₀ k with ⟨_, _, h⟩ | h
    · exact ⟨n + 1, k, h⟩
    · exact ⟨1, k, h⟩

/-- The history is a suffix of the tracked-call sequence. -/
theorem histAfter_suffix (tr : List CallKey) : histAfter tr <:+ tr := by
  induction tr using List.reverseRecOn with
  | nil => exact List.nil_suffix
  | append_singleton tr k ih =>
    rw [histAfter_append_one, trackStep]
    split
    · obtain ⟨u, hu⟩ := ih
      exact ⟨u, by rw [← List.append_assoc, hu]⟩
    · exact ⟨tr, rfl⟩

theorem detectOf_replicate_true {n : Nat} (k : CallKey) (hn : 3 ≤ n) :
    detectOf (List.replicate n k) = true := by
  cases n with
  | zero => omega
  | succ m =>
    rw [List.replicate_succ, detectOf]
    simp only [Bool.and_eq_true, decide_eq_true_eq, List.all_eq_true]
    refine ⟨by simpa using hn, ?_⟩
    intro x hx
    rcases List.mem_cons.mp hx with rfl | hx
    · simp
    · simp [List.eq_of_mem_replicate hx]

/-- Tracking any call after any history yields a non-empty run of that call. -/
theorem histAfter_concat_run (tr : List CallKey) (k : CallKey) :
    ∃ m, 1 ≤ m ∧ histAfter (tr ++ [k]) = List.replicate m k := by
  obtain ⟨n, k₀, hn⟩ := histAfter_isRun tr
  rw [histAfter_append_one, hn]
  rcases trackStep_replicate n k₀ k with ⟨_, _, h⟩ | h
  · exact ⟨n + 1, by omega, h⟩
  · exact ⟨1, by omega, h⟩

/-- Tracking `k` when the history is already a non-empty run of `k` extends
the run. -/
theorem trackStep_same_run {n : Nat} (hn : 1 ≤ n) (k : CallKey) :
    trackStep (List.replicate n k) k = List.replicate (n + 1) k := by
  rcases trackStep_replicate n k k with ⟨_, _, h⟩ | h
  · exact h
  · rw [trackStep] at h ⊢
    split at h
    · rename_i hl
      rw [if_pos hl, List.replicate_succ' n]
    · cases n with
      | zero => omega
      | succ m =>
        rename_i hl
        rw [List.replicate_succ', List.getLast?_concat] at hl
        exact absurd rfl hl

/-- If the tracked sequence ends in two copies of `k`, tracking a third `k`
fires the detector. -/
theorem detect_fires_of_double (t₀ : List CallKey) (k : CallKey) :
    detectOf (trackStep (histAfter (t₀ ++ [k, k])) k) = true := by
  obtain ⟨m, hm, h₁⟩ := histAfter_concat_run t₀ k
  have h₂ : histAfter (t₀ ++ [k, k]) = List.replicate (m + 1) k := by
    have hsplit : t₀ ++ [k, k] = (t₀ ++ [k]) ++ [k] := by simp
    rw [hsplit, histAfter_append_one, h₁, trackStep_same_run hm]
  rw [h₂, trackStep_same_run (by omega)]
  exact detectOf_replicate_true k (by omega)

theorem detectOf_false_of_short {l : List CallKey} (h : l.length < 3) :
    detectOf l = false := by
  rw [detectOf.eq_def]
  simp only [Bool.and_eq_false_iff, decide_eq_false_iff_not]
  left
  omega

/-- If the detector fires while tracking `k` after the tracked sequence `tr`,
then `tr` already ended with two copies of `k`. -/
theorem detect_shape {tr : List CallKey} {k : CallKey}
    (h : detectOf (trackStep (histAfter tr) k) = true) :
    ∃ t₀, tr = t₀ ++ [k, k] := by
  obtain ⟨n, k₀, hn⟩ := histAfter_isRun tr
  rw [hn] at h
  rcases trackStep_replicate n k₀ k with ⟨hk, hn1, hstep⟩ | hstep
  · subst hk
    rw [hstep] at h
    have h3 : 3 ≤ n + 1 := by
      by_contra hlt
      rw [detectOf_false_of_short (by simp; omega)] at h
      exact Bool.false_ne_true h
    have hsuf := histAfter_suffix tr
    rw [hn] at hsuf
    obtain ⟨u, hu⟩ := hsuf
    refine ⟨u ++ List.replicate (n - 2) k₀, ?_⟩
    have hrep : List.replicate n k₀ = List.replicate (n - 2) k₀ ++ [k₀, k₀] := by
      have h2 : n = (n - 2) + 1 + 1 := by omega
      rw [h2, List.replicate_succ', List.replicate_succ']
      simp
    rw [← hu, hrep]
    simp
  · rw [hstep] at h
    rw [detectOf_false_of_short (by simp)] at h
    exact absurd h (by simp)

/-- A triple in `tr ++ [k]` is either a triple in `tr` or the new call
completing a final double. -/
theorem hasTriple_append {tr : List CallKey} {k : CallKey}
    (h : hasTriple (tr ++ [k])) : hasTriple tr ∨ ∃ t₀, tr = t₀ ++ [k, k] := by
  obtain ⟨pre, x, post, heq⟩ := h
  rcases List.eq_nil_or_concat post with rfl | ⟨post', a, hpost⟩
  · have heq' : tr ++ [k] = (pre ++ [x, x]) ++ [x] := by
      rw [heq]
      simp
    obtain ⟨h₁, h₂⟩ := List.append_inj' heq' rfl
    right
    exact ⟨pre, by rw [h₁, List.cons.injEq] at *; simp_all⟩
  · subst hpost
    have heq' : tr ++ [k] = (pre ++ x :: x :: x :: post') ++ [a] := by
      rw [heq]
      simp [List.concat_eq_append]
    obtain ⟨h₁, h₂⟩ := List.append_inj' heq' rfl
    left
    exact ⟨pre, x, post', h₁⟩

/-- If no triple has occurred and the detector does not fire on the next
tracked call, the extended sequence still has no triple. -/
theorem noTriple_extend {tr : List CallKey} {k : CallKey}
    (hnt : ¬ hasTriple tr)
    (hdet : detectOf (trackStep (histAfter tr) k) = false) :
    ¬ hasTriple (tr ++ [k]) := by
  intro h
  rcases hasTriple_append h with h | ⟨t₀, rfl⟩
  · exact hnt h
  · simp [detect_fires_of_double t₀ k] at hdet

/-- The shape of the run state at a loop-detection abort: the trace ends with
the tracked third call, the detection marker and the appended loop-detected
tool result; the final content is the loop message; the tracked sequence ends
at the third element of the first group of three identical calls. -/
def AbortShape (evs : List Ev) (fin : Option String) : Prop :=
  ∃ pre k t₀,
    evs = pre ++ [Ev.tracked k, Ev.loopDetected k, Ev.toolResult k.1 (loopMessage k.1)] ∧
    fin = some (loopMessage k.1) ∧
    trackedOf evs = t₀ ++ [k, k, k] ∧
    ¬ hasTriple (t₀ ++ [k, k])

/-- Loop-detection invariant carried through the run: the object-level history
equals the history recomputed from the tracked calls, and no three consecutive
identical calls have been tracked yet. -/
def LoopInv (st : RunState) : Prop :=
  st.history = histAfter (trackedOf st.events) ∧ ¬ hasTriple (trackedOf st.events)

theorem trackedOf_append (l₁ l₂ : List Ev) :
    trackedOf (l₁ ++ l₂) = trackedOf l₁ ++ trackedOf l₂ :=
  List.filterMap_append l₁ l₂ _

theorem processToolCalls_spec (exec : String → JsonVal → String) :
    ∀ (tcs : List ToolCall) (st : RunState), LoopInv st →
      ((processToolCalls exec tcs st).2 = none ∧ LoopInv (processToolCalls exec tcs st).1) ∨
        AbortShape (processToolCalls exec tcs st).1.events (processToolCalls exec tcs st).2 := by
  intro tcs
  induction tcs with
  | nil =>
    intro st hinv
    exact Or.inl ⟨rfl, hinv⟩
  | cons tc rest ih =>
    intro st hinv
    obtain ⟨hhist, hnt⟩ := hinv
    simp only [processToolCalls, trackToolCall]
    by_cases hdet : detectOf (trackStep st.history (callKeyOf tc.name tc.arguments)) = true
    · rw [if_pos hdet]
      right
      refine ⟨st.events, callKeyOf tc.name tc.arguments, ?_⟩
      rw [hhist] at hdet
      obtain ⟨t₀, ht₀⟩ := detect_shape hdet
      refine ⟨t₀, rfl, rfl, ?_, ?_⟩
      · rw [trackedOf_append, ht₀]
        simp [trackedOf]
      · rw [← ht₀]
        exact hnt
    · rw [if_neg hdet]
      apply ih
      constructor
      · show trackStep st.history _ = _
        rw [trackedOf_append, hhist]
        have : trackedOf [Ev.tracked (callKeyOf tc.name tc.arguments),
            Ev.executed (callKeyOf tc.name tc.arguments),
            Ev.toolResult tc.name (if isFailure (exec tc.name tc.arguments) then
              exec tc.name tc.arguments ++ failureHint (exec tc.name tc.arguments)
              else exec tc.name tc.arguments)] = [callKeyOf tc.name tc.arguments] := by
          simp [trackedOf]
        rw [this, histAfter_append_one]
      · rw [trackedOf_append]
        have : trackedOf [Ev.tracked (callKeyOf tc.name tc.arguments),
            Ev.executed (callKeyOf tc.name tc.arguments),
            Ev.toolResult tc.name (if isFailure (exec tc.name tc.arguments) then
              exec tc.name tc.arguments ++ failureHint (exec tc.name tc.arguments)
              else exec tc.name tc.arguments)] = [callKeyOf tc.name tc.arguments] := by
          simp [trackedOf]
        rw [this]
        rw [hhist] at hdet
        exact noTriple_extend hnt (Bool.eq_false_iff.mpr hdet)

theorem runFrom_spec (provider : Nat → LLMResponse) (exec : String → JsonVal → String)
    (forced : Bool) :
    ∀ (fuel iter : Nat) (st : RunState), LoopInv st →
      ¬ hasTriple (trackedOf (runFrom provider exec forced fuel iter st).2.events) ∨
        AbortShape (runFrom provider exec forced fuel iter st).2.events
          (runFrom provider exec forced fuel iter st).1 := by
  intro fuel
  induction fuel with
  | zero =>
    intro iter st hinv
    exact Or.inl hinv.2
  | succ fuel ih =>
    intro iter st hinv
    have hinv1 : LoopInv { st with events := st.events ++ [Ev.llm iter] } := by
      obtain ⟨h1, h2⟩ := hinv
      constructor
      · rw [trackedOf_append]
        simpa [trackedOf] using h1
      · rw [trackedOf_append]
        simpa [trackedOf] using h2
    rw [runFrom]
    cases hresp : (provider iter).toolCalls with
    | nil =>
      simp only
      split <;> split
      all_goals first
        | exact ih (iter + 1) _ hinv1
        | exact Or.inl hinv1.2
    | cons tc rest =>
      simp only
      rcases processToolCalls_spec exec (tc :: rest)
          { st with events := st.events ++ [Ev.llm iter] } hinv1 with ⟨hfin, hinv2⟩ | habort
      · rcases hpc : processToolCalls exec (tc :: rest)
            { st with events := st.events ++ [Ev.llm iter] } with ⟨st2, fin⟩
        rw [hpc] at hfin hinv2
        simp only at hfin hinv2
        subst hfin
        exact ih (iter + 1) st2 hinv2
      · rcases hpc : processToolCalls exec (tc :: rest)
            { st with events := st.events ++ [Ev.llm iter] } with ⟨st2, fin⟩
        rw [hpc] at habort
        simp only at habort
        cases fin with
        | none =>
          exact ih (iter + 1) st2 (by
            obtain ⟨pre, k, t₀, _, hfin, _⟩ := habort
            exact absurd hfin (by simp))
        | some m =>
          exact Or.inr habort

theorem not_hasTriple_nil : ¬ hasTriple ([] : List CallKey) := by
  rintro ⟨pre, k, post, h⟩
  simp at h

theorem loopInv_init (priorHistory : List CallKey) :
    LoopInv { history := resetToolTracking priorHistory, toolsUsed := [], events := [] } :=
  ⟨rfl, not_hasTriple_nil⟩

theorem loopMessage_decomp (name : String) :
    loopMessage name =
      "[LOOP DETECTED]" ++ " Detected 3 consecutive identical tool calls: " ++ name ++
        " with identical arguments. Stopping to prevent infinite loop. Please try a different approach." := by
  have h : ("[LOOP DETECTED]" : String) ++ " Detected 3 consecutive identical tool calls: " =
      "[LOOP DETECTED] Detected 3 consecutive identical tool calls: " := by decide
  rw [loopMessage, ← h]

end Nanobot

namespace Nanobot

/-- C1: in every run of the agent iteration loop, whenever three consecutive
tracked tool calls have identical `(name, canonical-JSON-arguments)` pairs,
the loop aborts within that group: the trace ends right after the third
identical call is tracked and flagged, so that call is never executed, the
loop-detected tool result is the last thing appended, the final content is the
loop message (which starts with `[LOOP DETECTED]`), and no LLM call happens at
or after the abort point. -/
theorem c1_loop_detection_abort
    (priorHistory : List CallKey) (provider : Nat → LLMResponse)
    (exec : String → JsonVal → String) (forced : Bool)
    (htriple : hasTriple (trackedOf (runAgentLoop priorHistory provider exec forced 20).2.events)) :
    ∃ pre k t₀,
      (runAgentLoop priorHistory provider exec forced 20).2.events =
        pre ++ [Ev.tracked k, Ev.loopDetected k, Ev.toolResult k.1 (loopMessage k.1)] ∧
      (runAgentLoop priorHistory provider exec forced 20).1 =
        some ("[LOOP DETECTED]" ++ " Detected 3 consecutive identical tool calls: " ++ k.1 ++
          " with identical arguments. Stopping to prevent infinite loop. Please try a different approach.") ∧
      Ev.executed k ∉ ((runAgentLoop priorHistory provider exec forced 20).2.events).drop pre.length ∧
      llmCount (((runAgentLoop priorHistory provider exec forced 20).2.events).drop pre.length) = 0 ∧
      trackedOf (runAgentLoop priorHistory provider exec forced 20).2.events = t₀ ++ [k, k, k] ∧
      ¬ hasTriple (t₀ ++ [k, k]) := by
  unfold runAgentLoop
  rcases runFrom_spec provider exec forced 20 0
      { history := resetToolTracking priorHistory, toolsUsed := [], events := [] }
      (loopInv_init priorHistory) with hnt | habort
  · exact absurd htriple hnt
  · obtain ⟨pre, k, t₀, hev, hfin, htr, hnt⟩ := habort
    refine ⟨pre, k, t₀, hev, ?_, ?_, ?_, htr, hnt⟩
    · rw [hfin, loopMessage_decomp]
    · rw [hev, List.drop_left]
      simp
    · rw [hev, List.drop_left]
      simp [llmCount]

/-- Witness for C1 at a concrete run: a provider that emits the same
`web_search` call on every iteration triggers the abort on the third call. -/
theorem c1_loop_detection_abort_witness :
    hasTriple (trackedOf (runAgentLoop []
        (fun _ => ⟨none, [⟨"call1", "web_search", .obj [("q", .str "x")]⟩]⟩)
        (fun _ _ => "ok") false 20).2.events) ∧
      (∃ pre k t₀,
        (runAgentLoop [] (fun _ => ⟨none, [⟨"call1", "web_search", .obj [("q", .str "x")]⟩]⟩)
            (fun _ _ => "ok") false 20).2.events =
          pre ++ [Ev.tracked k, Ev.loopDetected k, Ev.toolResult k.1 (loopMessage k.1)] ∧
        (runAgentLoop [] (fun _ => ⟨none, [⟨"call1", "web_search", .obj [("q", .str "x")]⟩]⟩)
            (fun _ _ => "ok") false 20).1 =
          some ("[LOOP DETECTED]" ++ " Detected 3 consecutive identical tool calls: " ++ k.1 ++
            " with identical arguments. Stopping to prevent infinite loop. Please try a different approach.") ∧
        Ev.executed k ∉ ((runAgentLoop []
            (fun _ => ⟨none, [⟨"call1", "web_search", .obj [("q", .str "x")]⟩]⟩)
            (fun _ _ => "ok") false 20).2.events).drop pre.length ∧
        llmCount (((runAgentLoop []
            (fun _ => ⟨none, [⟨"call1", "web_search", .obj [("q", .str "x")]⟩]⟩)
            (fun _ _ => "ok") false 20).2.events).drop pre.length) = 0 ∧
        trackedOf (runAgentLoop []
            (fun _ => ⟨none, [⟨"call1", "web_search", .obj [("q", .str "x")]⟩]⟩)
            (fun _ _ => "ok") false 20).2.events = t₀ ++ [k, k, k] ∧
        ¬ hasTriple (t₀ ++ [k, k])) := by
  have htriple : hasTriple (trackedOf (runAgentLoop []
      (fun _ => ⟨none, [⟨"call1", "web_search", .obj [("q", .str "x")]⟩]⟩)
      (fun _ _ => "ok") false 20).2.events) := by
    refine ⟨[], ("web_search", "\x7b\"q\": \"x\"\x7d"), [], ?_⟩
    decide
  exact ⟨htriple, c1_loop_detection_abort [] _ _ false htriple⟩

/-- A provider that emits the tool-call pattern A, A, B, A, A over five
iterations and then a plain text response. -/
def aabaaProvider : Nat → LLMResponse := fun i =>
  if i = 2 then ⟨none, [⟨"c3", "web_fetch", .obj [("url", .str "u")]⟩]⟩
  else if i ≤ 4 then ⟨none, [⟨"c", "web_search", .obj [("q", .str "x")]⟩]⟩
  else ⟨some "done", []⟩

/-- C10: loop detection only triggers on consecutive identical calls.  (a) A
call that differs from the last tracked call resets the history to that call
alone (and does not fire the detector); (b) the interleaved sequence
A, A, B, A, A runs to completion with no loop-detected event; (c) the tracking
history is emptied at the start of every request: the run is independent of
whatever history a previous request left behind. -/
theorem c10_consecutive_only :
    (∀ (history : List CallKey) (name : String) (args : JsonVal),
        history.getLast? ≠ some (callKeyOf name args) →
        trackToolCall history name args = ([callKeyOf name args], false)) ∧
    ((runAgentLoop [] aabaaProvider (fun _ _ => "ok") false 20).1 = some "done" ∧
      ((runAgentLoop [] aabaaProvider (fun _ _ => "ok") false 20).2.events.all fun e =>
        match e with
        | Ev.loopDetected _ => false
        | _ => true) = true) ∧
    (∀ (priorHistory : List CallKey) (provider : Nat → LLMResponse)
        (exec : String → JsonVal → String) (forced : Bool) (maxIterations : Nat),
        runAgentLoop priorHistory provider exec forced maxIterations =
          runAgentLoop [] provider exec forced maxIterations) := by
  refine ⟨?_, ⟨by decide, by decide⟩, fun _ _ _ _ _ => rfl⟩
  intro history name args h
  have hstep : trackStep history (callKeyOf name args) = [callKeyOf name args] := by
    rw [trackStep, if_neg h]
  show (trackStep history (callKeyOf name args),
      detectOf (trackStep history (callKeyOf name args))) = _
  rw [hstep, detectOf_false_of_short (by simp)]

/-- Witness for C10's universally quantified reset clause at a concrete
history and call. -/
theorem c10_consecutive_only_witness :
    ([(("a", "b"))] : List CallKey).getLast? ≠ some (callKeyOf "web_search" .null) ∧
      trackToolCall [("a", "b")] "web_search" .null = ([callKeyOf "web_search" .null], false) :=
  ⟨by decide, c10_consecutive_only.1 [("a", "b")] "web_search" .null (by decide)⟩

/-! ### C2: the text-only retry policy -/

/-- A provider that never emits tool calls, with the given contents. -/
def textProvider (cs : Nat → Option String) : Nat → LLMResponse := fun i => ⟨cs i, []⟩

/-- One iteration of the loop against a text-only provider. -/
theorem runFrom_text_step (cs : Nat → Option String) (exec : String → JsonVal → String)
    (forced : Bool) (fuel iter : Nat) (st : RunState) (h : st.toolsUsed = []) :
    runFrom (textProvider cs) exec forced (fuel + 1) iter st =
      if (stripThink (cs iter)).isSome && decide (iter + 1 < (if forced then 5 else 1)) then
        runFrom (textProvider cs) exec forced fuel (iter + 1)
          { st with events := st.events ++ [Ev.llm iter] }
      else
        (stripThink (cs iter), { st with events := st.events ++ [Ev.llm iter] }) := by
  rw [runFrom]
  simp [textProvider, h]

/-- The run state after `n` text-only iterations. -/
def textSt (n : Nat) : RunState :=
  { history := [], toolsUsed := [], events := (List.range n).map Ev.llm }

theorem textSt_step (n : Nat) :
    { textSt n with events := (textSt n).events ++ [Ev.llm n] } = textSt (n + 1) := by
  simp [textSt, List.range_succ]

/-- The claim's reading of the retry rule: with `forced` true, a first
response with no tool calls is always discarded and retried (no tool has been
used and the iteration count 1 is below 5), so a second LLM call is made. -/
def ClaimC2AlwaysRetries : Prop :=
  ∀ (cs : Nat → Option String),
    2 ≤ llmCount (runAgentLoop [] (textProvider cs) (fun _ _ => "ok") true 20).2.events

/-- C2 counterexample: with `forced` true, no tool used and iteration 1 < 5,
a response whose `<think>`-stripped text is empty is NOT retried: the loop
terminates immediately with final content `none` after a single LLM call
(the code additionally requires the stripped text to be non-empty). -/
theorem c2_counterexample : ¬ ClaimC2AlwaysRetries := by
  intro h
  have h1 := h fun _ => some ""
  have h2 : llmCount (runAgentLoop [] (textProvider fun _ => some "")
      (fun _ _ => "ok") true 20).2.events = 1 := by decide
  omega

/-- C2 (amended): against a text-only provider, (a) when `forced` is false the
loop terminates at the first response with its stripped text; (b) when
`forced` is true and the first four responses strip to non-empty text, the
retry bound of 5 is reached and the fifth response's stripped text is the
final content; (c) when `forced` is true and response `k` (k < 4) strips to
empty after non-empty predecessors, the loop stops there with final content
`none` — i.e. the retry happens exactly when `forced` holds, no tool has been
used, the iteration count is below 5, and the stripped text is non-empty. -/
theorem c2_text_retry_policy (cs : Nat → Option String)
    (exec : String → JsonVal → String) :
    ((runAgentLoop [] (textProvider cs) exec false 20).1 = stripThink (cs 0) ∧
      llmCount (runAgentLoop [] (textProvider cs) exec false 20).2.events = 1) ∧
    ((∀ i, i < 4 → stripThink (cs i) ≠ none) →
      (runAgentLoop [] (textProvider cs) exec true 20).1 = stripThink (cs 4) ∧
      llmCount (runAgentLoop [] (textProvider cs) exec true 20).2.events = 5) ∧
    (∀ k, k < 4 → stripThink (cs k) = none → (∀ i, i < k → stripThink (cs i) ≠ none) →
      (runAgentLoop [] (textProvider cs) exec true 20).1 = none ∧
      llmCount (runAgentLoop [] (textProvider cs) exec true 20).2.events = k + 1) := by
  have hstart : runAgentLoop [] (textProvider cs) exec false 20 =
      runFrom (textProvider cs) exec false 20 0 (textSt 0) := by
    rw [runAgentLoop]
    rfl
  have hstartT : runAgentLoop [] (textProvider cs) exec true 20 =
      runFrom (textProvider cs) exec true 20 0 (textSt 0) := by
    rw [runAgentLoop]
    rfl
  refine ⟨?_, ?_, ?_⟩
  · rw [hstart, show (20 : Nat) = 19 + 1 from rfl,
      runFrom_text_step cs exec false 19 0 (textSt 0) rfl]
    simp [textSt, llmCount]
  · intro hne
    have h0 := hne 0 (by omega)
    have h1 := hne 1 (by omega)
    have h2 := hne 2 (by omega)
    have h3 := hne 3 (by omega)
    rw [hstartT, show (20 : Nat) = 19 + 1 from rfl,
      runFrom_text_step cs exec true 19 0 (textSt 0) rfl,
      if_pos (by simp [Option.isSome_iff_ne_none, h0]), textSt_step,
      show (19 : Nat) = 18 + 1 from rfl,
      runFrom_text_step cs exec true 18 1 (textSt 1) rfl,
      if_pos (by simp [Option.isSome_iff_ne_none, h1]), textSt_step,
      show (18 : Nat) = 17 + 1 from rfl,
      runFrom_text_step cs exec true 17 2 (textSt 2) rfl,
      if_pos (by simp [Option.isSome_iff_ne_none, h2]), textSt_step,
      show (17 : Nat) = 16 + 1 from rfl,
      runFrom_text_step cs exec true 16 3 (textSt 3) rfl,
      if_pos (by simp [Option.isSome_iff_ne_none, h3]), textSt_step,
      show (16 : Nat) = 15 + 1 from rfl,
      runFrom_text_step cs exec true 15 4 (textSt 4) rfl,
      if_neg (by simp)]
    simp [textSt, llmCount, List.countP_cons]
    decide
  · intro k hk hnone hne
    match k, hk with
    | 0, _ =>
      rw [hstartT, show (20 : Nat) = 19 + 1 from rfl,
        runFrom_text_step cs exec true 19 0 (textSt 0) rfl,
        if_neg (by simp [hnone])]
      simp [hnone, textSt, llmCount]
    | 1, _ =>
      have h0 := hne 0 (by omega)
      rw [hstartT, show (20 : Nat) = 19 + 1 from rfl,
        runFrom_text_step cs exec true 19 0 (textSt 0) rfl,
        if_pos (by simp [Option.isSome_iff_ne_none, h0]), textSt_step,
        show (19 : Nat) = 18 + 1 from rfl,
        runFrom_text_step cs exec true 18 1 (textSt 1) rfl,
        if_neg (by simp [hnone])]
      simp [hnone, textSt, llmCount, List.countP_cons]
      decide
    | 2, _ =>
      have h0 := hne 0 (by omega)
      have h1 := hne 1 (by omega)
      rw [hstartT, show (20 : Nat) = 19 + 1 from rfl,
        runFrom_text_step cs exec true 19 0 (textSt 0) rfl,
        if_pos (by simp [Option.isSome_iff_ne_none, h0]), textSt_step,
        show (19 : Nat) = 18 + 1 from rfl,
        runFrom_text_step cs exec true 18 1 (textSt 1) rfl,
        if_pos (by simp [Option.isSome_iff_ne_none, h1]), textSt_step,
        show (18 : Nat) = 17 + 1 from rfl,
        runFrom_text_step cs exec true 17 2 (textSt 2) rfl,
        if_neg (by simp [hnone])]
      simp [hnone, textSt, llmCount, List.countP_cons]
      decide
    | 3, _ =>
      have h0 := hne 0 (by omega)
      have h1 := hne 1 (by omega)
      have h2 := hne 2 (by omega)
      rw [hstartT, show (20 : Nat) = 19 + 1 from rfl,
        runFrom_text_step cs exec true 19 0 (textSt 0) rfl,
        if_pos (by simp [Option.isSome_iff_ne_none, h0]), textSt_step,
        show (19 : Nat) = 18 + 1 from rfl,
        runFrom_text_step cs exec true 18 1 (textSt 1) rfl,
        if_pos (by simp [Option.isSome_iff_ne_none, h1]), textSt_step,
        show (18 : Nat) = 17 + 1 from rfl,
        runFrom_text_step cs exec true 17 2 (textSt 2) rfl,
        if_pos (by simp [Option.isSome_iff_ne_none, h2]), textSt_step,
        show (17 : Nat) = 16 + 1 from rfl,
        runFrom_text_step cs exec true 16 3 (textSt 3) rfl,
        if_neg (by simp [hnone])]
      simp [hnone, textSt, llmCount, List.countP_cons]
      decide

/-- Witness for C2 (amended), clause (b): with every response equal to
`"hi"`, the forced run makes exactly 5 LLM calls and returns `"hi"`. -/
theorem c2_text_retry_policy_witness :
    (∀ i, i < 4 → stripThink ((fun _ => some "hi") i) ≠ none) ∧
      ((runAgentLoop [] (textProvider fun _ => some "hi") (fun _ _ => "ok") true 20).1 =
          stripThink (some "hi") ∧
        llmCount (runAgentLoop [] (textProvider fun _ => some "hi")
            (fun _ _ => "ok") true 20).2.events = 5) :=
  ⟨fun i _ => by
      show stripThink (some "hi") ≠ none
      decide,
    (c2_text_retry_policy (fun _ => some "hi") (fun _ _ => "ok")).2.1 fun i _ => by
      show stripThink (some "hi") ≠ none
      decide⟩

/-! ## `nanobot.channels.discord._split_message`

`MAX_MESSAGE_LEN = 2000`.  The splitter repeatedly cuts at the last newline
in the first `max_len` characters, else the last space, else hard at
`max_len`, and left-strips the remainder. -/

/-- Index of the last occurrence of `c` (Python `str.rfind` restricted to a
single-character needle), or `none`. -/
def rfindAux (c : Char) : List Char → Option Nat
  | [] => none
  | x :: xs =>
    match rfindAux c xs with
    | some j => some (j + 1)
    | none => if x == c then some 0 else none

/-- Python `cut.rfind(c)`: last index, or -1. -/
def pyRfind (c : Char) (l : List Char) : Int :=
  match rfindAux c l with
  | some n => (n : Int)
  | none => -1

/-- `pos if pos > 0 else default` (the `pos <= 0` fallbacks of the source). -/
def pyPosOr (p : Int) (d : Nat) : Nat :=
  if p ≤ 0 then d else p.toNat

/-- The split position chosen by one iteration of `_split_message`: the last
newline in `content[:max_len]` if at a positive index, else the last space if
at a positive index, else `max_len`. -/
def splitPos (maxLen : Nat) (content : List Char) : Nat :=
  pyPosOr
    (if pyRfind '\n' (content.take maxLen) ≤ 0 then pyRfind ' ' (content.take maxLen)
     else pyRfind '\n' (content.take maxLen))
    maxLen

/-- The `while content:` loop of `_split_message`, with fuel (each iteration
removes at least one character when `max_len ≥ 1`, so `content.length` fuel
suffices). -/
def splitAux (maxLen : Nat) : Nat → List Char → List (List Char)
  | 0, _ => []
  | fuel + 1, content =>
    if content.isEmpty then []
    else if content.length ≤ maxLen then [content]
    else
      content.take (splitPos maxLen content) ::
        splitAux maxLen fuel
          ((content.drop (splitPos maxLen content)).dropWhile isPyWS)

theorem rfindAux_lt {c : Char} : ∀ {l : List Char} {n : Nat},
    rfindAux c l = some n → n < l.length := by
  intro l
  induction l with
  | nil => intro n h; rw [rfindAux] at h; exact absurd h (by simp)
  | cons x xs ih =>
    intro n h
    rw [rfindAux] at h
    match hx : rfindAux c xs with
    | some j =>
      rw [hx] at h
      have h' : some (j + 1) = some n := h
      simp only [Option.some.injEq] at h'
      have hj := ih hx
      simp only [List.length_cons]
      omega
    | none =>
      rw [hx] at h
      have h' : (if (x == c) = true then some 0 else none) = some n := h
      split at h'
      · simp only [Option.some.injEq] at h'
        simp only [List.length_cons]
        omega
      · exact absurd h' (by simp)

theorem pyPosOr_pos {d : Nat} (hd : 1 ≤ d) (p : Int) : 1 ≤ pyPosOr p d := by
  rw [pyPosOr]
  split
  · omega
  · rename_i hp
    omega

theorem pyPosOr_le {d : Nat} (p : Int) (hp : p < (d : Int)) : pyPosOr p d ≤ d := by
  rw [pyPosOr]
  split
  · omega
  · rename_i hp2
    omega

theorem pyRfind_lt_length (c : Char) (l : List Char) :
    pyRfind c l < (l.length : Int) ∨ pyRfind c l = -1 := by
  rw [pyRfind]
  match hr : rfindAux c l with
  | some n =>
    left
    show (n : Int) < (l.length : Int)
    exact_mod_cast rfindAux_lt hr
  | none =>
    right
    rfl

theorem splitPos_pos {maxLen : Nat} (hml : 1 ≤ maxLen) (content : List Char) :
    1 ≤ splitPos maxLen content := by
  rw [splitPos]
  exact pyPosOr_pos hml _

theorem splitPos_le {maxLen : Nat} (content : List Char)
    (hlen : maxLen < content.length) : splitPos maxLen content ≤ maxLen := by
  rw [splitPos]
  have hcut : ((content.take maxLen).length : Int) = (maxLen : Int) := by
    simp only [List.length_take]
    omega
  have hbound : ∀ ch : Char, pyRfind ch (content.take maxLen) < (maxLen : Int) := by
    intro ch
    rcases pyRfind_lt_length ch (content.take maxLen) with h | h
    · omega
    · rw [h]
      omega
  apply pyPosOr_le
  split
  · exact hbound ' '
  · exact hbound '\n'

/-- `_split_message(content, max_len)`. -/
def splitMessage (content : String) (maxLen : Nat := 2000) : List String :=
  if content.isEmpty then []
  else if content.length ≤ maxLen then [content]
  else (splitAux maxLen content.data.length content.data).map String.mk

/-- Every chunk produced by the loop has length at most `max_len`. -/
theorem splitAux_chunk_le {maxLen : Nat} :
    ∀ (fuel : Nat) (content : List Char) (c : List Char),
      c ∈ splitAux maxLen fuel content → c.length ≤ maxLen := by
  intro fuel
  induction fuel with
  | zero => intro content c h; rw [splitAux] at h; exact absurd h (List.not_mem_nil c)
  | succ fuel ih =>
    intro content c h
    rw [splitAux] at h
    split at h
    · exact absurd h (List.not_mem_nil c)
    · split at h
      · rename_i hlen
        rw [List.mem_singleton.mp h]
        exact hlen
      · rename_i hempty hlen
        rcases List.mem_cons.mp h with rfl | h
        · simp only [List.length_take]
          have := @splitPos_le maxLen content (by omega)
          omega
        · exact ih _ c h

/-- The chunks, interleaved with the whitespace removed at the split points,
reassemble the original character sequence. -/
inductive ChunksJoin : List (List Char) → List Char → Prop
  | nil : ChunksJoin [] []
  | single (c : List Char) : ChunksJoin [c] c
  | cons (c ws : List Char) (rest : List (List Char)) (l : List Char) :
      (∀ x ∈ ws, isPyWS x = true) → ChunksJoin rest l →
      ChunksJoin (c :: rest) (c ++ (ws ++ l))

theorem dropWhile_length_le (p : Char → Bool) (l : List Char) :
    (l.dropWhile p).length ≤ l.length := by
  induction l with
  | nil => simp [List.dropWhile]
  | cons x xs ih =>
    rw [List.dropWhile_cons]
    split
    · simp only [List.length_cons]
      omega
    · simp

theorem splitAux_join {maxLen : Nat} (hml : 1 ≤ maxLen) :
    ∀ (fuel : Nat) (content : List Char), content.length ≤ fuel →
      ChunksJoin (splitAux maxLen fuel content) content := by
  intro fuel
  induction fuel with
  | zero =>
    intro content hlen
    have : content = [] := List.length_eq_zero.mp (by omega)
    subst this
    rw [splitAux]
    exact ChunksJoin.nil
  | succ fuel ih =>
    intro content hlen
    rw [splitAux]
    split
    · rename_i hempty
      rw [List.isEmpty_iff.mp hempty]
      exact ChunksJoin.nil
    · split
      · exact ChunksJoin.single content
      · rename_i hempty hgt
        have hpos1 : 1 ≤ splitPos maxLen content := splitPos_pos hml content
        have hdw := dropWhile_length_le isPyWS (content.drop (splitPos maxLen content))
        have hrest : ((content.drop (splitPos maxLen content)).dropWhile isPyWS).length ≤ fuel := by
          have h₂ : (content.drop (splitPos maxLen content)).length =
              content.length - splitPos maxLen content := by
            simp
          have hcl : ¬ content.length ≤ maxLen := by assumption
          omega
        have hjoin := ih ((content.drop (splitPos maxLen content)).dropWhile isPyWS) hrest
        have hthis := ChunksJoin.cons (content.take (splitPos maxLen content))
          ((content.drop (splitPos maxLen content)).takeWhile isPyWS)
          (splitAux maxLen fuel ((content.drop (splitPos maxLen content)).dropWhile isPyWS))
          ((content.drop (splitPos maxLen content)).dropWhile isPyWS)
          (fun x hx => List.mem_takeWhile_imp hx) hjoin
        have hdecomp : content.take (splitPos maxLen content) ++
            ((content.drop (splitPos maxLen content)).takeWhile isPyWS ++
              (content.drop (splitPos maxLen content)).dropWhile isPyWS) = content := by
          rw [List.takeWhile_append_dropWhile, List.take_append_drop]
        rwa [hdecomp] at hthis

/-- C6: Discord message splitting.  For every non-empty message: every chunk
has length at most 2000; a message of length at most 2000 is returned as the
single chunk equal to itself; and the chunks, interleaved with the whitespace
removed at the chosen split points, reassemble the original string. -/
theorem c6_discord_split_message (s : String) (hne : s ≠ "") :
    (∀ c ∈ splitMessage s, c.length ≤ 2000) ∧
    (s.length ≤ 2000 → splitMessage s = [s]) ∧
    ChunksJoin ((splitMessage s).map String.data) s.data := by
  have hdata : ¬ s.data.isEmpty = true := by
    intro h
    exact hne (string_eq_of_data (by simpa using List.isEmpty_iff.mp h))
  refine ⟨?_, ?_, ?_⟩
  · intro c hc
    rw [splitMessage] at hc
    split at hc
    · exact absurd hc (List.not_mem_nil c)
    · split at hc
      · rename_i hlen
        rw [List.mem_singleton.mp hc]
        exact hlen
      · obtain ⟨l, hl, rfl⟩ := List.mem_map.mp hc
        show (String.mk l).data.length ≤ 2000
        exact splitAux_chunk_le _ _ _ hl
  · intro hlen
    rw [splitMessage, if_neg (by simpa [String.isEmpty_iff] using hne), if_pos hlen]
  · rw [splitMessage]
    split
    · rename_i h
      exact absurd (by simpa [String.isEmpty_iff] using h) hne
    · split
      · exact ChunksJoin.single s.data
      · rename_i h hgt
        have hj := @splitAux_join 2000 (by omega) s.data.length s.data (le_refl _)
        have hcongr : List.map (String.data ∘ String.mk) (splitAux 2000 s.data.length s.data)
            = List.map id (splitAux 2000 s.data.length s.data) :=
          List.map_congr_left fun l _ => rfl
        rw [List.map_map, hcongr, List.map_id]
        exact hj

/-- Witness for C6 at a concrete short message. -/
theorem c6_discord_split_message_witness :
    ("hello" : String) ≠ "" ∧ splitMessage "hello" = ["hello"] :=
  ⟨by decide, (c6_discord_split_message "hello" (by decide)).2.1 (by decide)⟩

/-! ## `AgentLoop._consolidate_memory`

The consolidator is modelled over an oracle environment for the
`MemoryStore` reads/writes and the LLM call (each fallible operation is an
`Except`, the error being the exception message).  `json_repair.loads` is the
parse oracle.  The session's fields are passed explicitly; the function
returns the new `last_consolidated` cursor and what happened. -/

/-- A stored session message as used by the consolidator (`m.get("content")`,
`m.get("timestamp", "?")`, `m["role"]`, `m.get("tools_used")`). An absent
`tools_used` is the empty list; an absent/empty content is `""` (both are
falsy in the source's `if not m.get("content")`). -/
structure SessMsg where
  role : String
  content : String
  timestamp : String
  toolsUsed : List String
deriving DecidableEq

inductive ConsOutcome where
  | skippedNoNeed
  | skippedNoNew
  | skippedEmptySlice
  | skippedEmptyResponse
  | skippedNotDict
  | done
  | failed (msg : String)
deriving DecidableEq

structure ConsolidateEnv where
  readLongTerm : String
  llm : String → Except String (Option String)
  parse : String → Except String JsonVal
  appendHistory : String → Except String Unit
  writeLongTerm : String → Except String Unit

/-- Python slice `l[start:-k]` (note `-0 == 0`, so `k = 0` yields the empty
slice `l[start:0]`). -/
def pySliceNegStop (l : List SessMsg) (start k : Nat) : List SessMsg :=
  let stop := if k = 0 then 0 else l.length - k
  (l.drop start).take (stop - start)

/-- One rendered conversation line:
`[timestamp[:16]] ROLE [tools: …]: content`. -/
def renderLine (m : SessMsg) : String :=
  let tools := if m.toolsUsed.isEmpty then ""
    else " [tools: " ++ String.intercalate ", " m.toolsUsed ++ "]"
  "[" ++ pyTake 16 m.timestamp ++ "] " ++ pyUpper m.role ++ tools ++ ": " ++ m.content

/-- `json.dumps(v, ensure_ascii=False)` (no key sorting), used by the
defensive stringification of non-string fields. -/
def dumpsRawF : Nat → JsonVal → String
  | 0, _ => ""
  | _ + 1, .null => "null"
  | _ + 1, .bool true => "true"
  | _ + 1, .bool false => "false"
  | _ + 1, .num n => toString n
  | _ + 1, .str s => "\"" ++ escapeStr s ++ "\""
  | fuel + 1, .arr xs =>
      "[" ++ String.intercalate ", " (xs.map fun x => dumpsRawF fuel x) ++ "]"
  | fuel + 1, .obj kvs =>
      "\x7b" ++ String.intercalate ", "
        (kvs.map fun kv => "\"" ++ escapeStr kv.1 ++ "\": " ++ dumpsRawF fuel kv.2) ++ "\x7d"

def dumpsRaw (v : JsonVal) : String :=
  dumpsRawF (jsize v) v

/-- Python truthiness of a JSON value. -/
def jsonTruthy : JsonVal → Bool
  | .null => false
  | .bool b => b
  | .num n => decide (n ≠ 0)
  | .str s => decide (s ≠ "")
  | .arr xs => !xs.isEmpty
  | .obj kvs => !kvs.isEmpty

/-- `result.get(key)` on a parsed JSON object (absent key gives `None`). -/
def dictGet (kvs : List (String × JsonVal)) (key : String) : JsonVal :=
  match kvs.find? fun kv => kv.1 == key with
  | some kv => kv.2
  | none => .null

/-- The defensive stringification: keep a string, `json.dumps` anything else. -/
def asStr : JsonVal → String
  | .str s => s
  | v => dumpsRaw v

def pyStartsWith (p s : String) : Bool :=
  p.data.isPrefixOf s.data

/-- `text.split("\n", 1)[-1].rsplit("```", 1)[0].strip()`. -/
def stripFence (s : String) : String :=
  let afterFirstLine :=
    match findSub ['\n'] s.data with
    | none => s.data
    | some (_, after) => after
  let beforeLastTicks :=
    match findSub ['`', '`', '`'] afterFirstLine.reverse with
    | none => afterFirstLine
    | some (_, afterRev) => afterRev.reverse
  pyStrip (String.mk beforeLastTicks)

/-- The consolidation prompt (the f-string of the source, with the current
memory and the rendered conversation interpolated). -/
def consolidationPrompt (currentMemory conversation : String) : String :=
  "You are a memory consolidation agent. Process this conversation and return a JSON object with exactly two keys:\n\n1. \"history_entry\": A paragraph (2-5 sentences) summarizing the key events/decisions/topics. Start with a timestamp like [YYYY-MM-DD HH:MM]. Include enough detail to be useful when found by grep search later.\n\n2. \"memory_update\": The updated long-term memory content. Add any new facts: user location, preferences, personal info, habits, project context, technical decisions, tools/services used. If nothing new, return the existing content unchanged.\n\n## Current Long-term Memory\n" ++
    (if currentMemory == "" then "(empty)" else currentMemory) ++
    "\n\n## Conversation to Process\n" ++ conversation ++
    "\n\n**IMPORTANT**: Both values MUST be strings, not objects or arrays.\n\nExample:\n\x7b\n  \"history_entry\": \"[2026-02-14 22:50] User asked about...\",\n  \"memory_update\": \"- Host: HARRYBOOK-T14P\n- Name: Nado\"\n\x7d\n\nRespond with ONLY valid JSON, no markdown fences."

/-- The `try:` body of `_consolidate_memory` from the LLM call on, given the
messages to process (`old`), the total number of session messages, and the
`keep_count`.  Any `.error` of an oracle is an exception reaching the
`except`: the cursor is left unchanged. -/
def consolidateCore (env : ConsolidateEnv) (old : List SessMsg)
    (numMessages keep lastConsolidated : Nat) (archiveAll : Bool) :
    Nat × ConsOutcome :=
  let conversation :=
    String.intercalate "\n" ((old.filter fun m => !(m.content == "")).map renderLine)
  let currentMemory := env.readLongTerm
  match env.llm (consolidationPrompt currentMemory conversation) with
  | .error e => (lastConsolidated, .failed e)
  | .ok content =>
    let text := pyStrip ((content.getD ""))
    if text == "" then (lastConsolidated, .skippedEmptyResponse)
    else
      let text := if pyStartsWith "```" text then stripFence text else text
      match env.parse text with
      | .error e => (lastConsolidated, .failed e)
      | .ok (.obj kvs) =>
        let entry := dictGet kvs "history_entry"
        let update := dictGet kvs "memory_update"
        let newCursor := if archiveAll then 0 else numMessages - keep
        let updateStep : Nat × ConsOutcome :=
          if jsonTruthy update then
            if asStr update == currentMemory then (newCursor, .done)
            else
              match env.writeLongTerm (asStr update) with
              | .error e => (lastConsolidated, .failed e)
              | .ok _ => (newCursor, .done)
          else (newCursor, .done)
        if jsonTruthy entry then
          match env.appendHistory (asStr entry) with
          | .error e => (lastConsolidated, .failed e)
          | .ok _ => updateStep
        else updateStep
      | .ok _ => (lastConsolidated, .skippedNotDict)

/-- `AgentLoop._consolidate_memory`. -/
def consolidateMemory (env : ConsolidateEnv) (memoryWindow : Nat)
    (messages : List SessMsg) (lastConsolidated : Nat) (archiveAll : Bool) :
    Nat × ConsOutcome :=
  if archiveAll then
    consolidateCore env messages messages.length 0 lastConsolidated true
  else
    let keep := memoryWindow / 2
    if messages.length ≤ keep then (lastConsolidated, .skippedNoNeed)
    else if messages.length ≤ lastConsolidated then (lastConsolidated, .skippedNoNew)
    else
      let old := pySliceNegStop messages lastConsolidated keep
      if old.isEmpty then (lastConsolidated, .skippedEmptySlice)
      else consolidateCore env old messages.length keep lastConsolidated false

/-- The core either completes (cursor `len − keep`, or 0 in archive-all mode)
or returns without touching the cursor. -/
theorem consolidateCore_spec (env : ConsolidateEnv) (old : List SessMsg)
    (numMessages keep lastConsolidated : Nat) (archiveAll : Bool) :
    consolidateCore env old numMessages keep lastConsolidated archiveAll =
      ((if archiveAll then 0 else numMessages - keep), ConsOutcome.done) ∨
      ((consolidateCore env old numMessages keep lastConsolidated archiveAll).1 =
          lastConsolidated ∧
        (consolidateCore env old numMessages keep lastConsolidated archiveAll).2 ≠
          ConsOutcome.done) := by
  simp only [consolidateCore]
  repeat' split
  all_goals first
    | exact Or.inl rfl
    | exact Or.inr ⟨rfl, by simp⟩

/-- `_consolidate_memory` either completes with the advanced cursor or leaves
the cursor unchanged with a non-`done` outcome. -/
theorem consolidateMemory_spec (env : ConsolidateEnv) (memoryWindow : Nat)
    (messages : List SessMsg) (lastConsolidated : Nat) (archiveAll : Bool) :
    consolidateMemory env memoryWindow messages lastConsolidated archiveAll =
      ((if archiveAll then 0 else messages.length - memoryWindow / 2), ConsOutcome.done) ∨
      ∃ oc, oc ≠ ConsOutcome.done ∧
        consolidateMemory env memoryWindow messages lastConsolidated archiveAll =
          (lastConsolidated, oc) := by
  rw [consolidateMemory]
  split
  · rename_i haa
    rcases consolidateCore_spec env messages messages.length 0 lastConsolidated true
      with h | ⟨h1, h2⟩
    · left
      rw [h]
      simp [haa]
    · right
      refine ⟨(consolidateCore env messages messages.length 0 lastConsolidated true).2, h2, ?_⟩
      exact Prod.ext h1 rfl
  · rename_i haa
    simp only
    split
    · exact Or.inr ⟨ConsOutcome.skippedNoNeed, by simp, rfl⟩
    · split
      · exact Or.inr ⟨ConsOutcome.skippedNoNew, by simp, rfl⟩
      · split
        · exact Or.inr ⟨ConsOutcome.skippedEmptySlice, by simp, rfl⟩
        · rcases consolidateCore_spec env
              (pySliceNegStop messages lastConsolidated (memoryWindow / 2))
              messages.length (memoryWindow / 2) lastConsolidated false
            with h | ⟨h1, h2⟩
          · left
            rw [h]
            simp [haa]
          · right
            exact ⟨(consolidateCore env
              (pySliceNegStop messages lastConsolidated (memoryWindow / 2))
              messages.length (memoryWindow / 2) lastConsolidated false).2, h2,
              Prod.ext h1 rfl⟩

/-- C3 (amended): the consolidator computes `keep = memory_window / 2`; when
`keep ≥ 1` the processed slice `messages[last_consolidated:-keep]` equals the
spec's `messages[last_consolidated : len − keep]` (for `keep = 0`, i.e.
`memory_window ≤ 1`, the Python slice `[last:-0]` is empty, so consolidation
always skips); normal mode skips with the cursor unchanged when the slice is
empty; on success the cursor becomes `len(messages) − keep` (0 in archive-all
mode); on any exception the cursor is unchanged. -/
theorem c3_consolidation_cursor (env : ConsolidateEnv) (memoryWindow : Nat)
    (messages : List SessMsg) (lastConsolidated : Nat) (archiveAll : Bool) :
    (1 ≤ memoryWindow / 2 →
      pySliceNegStop messages lastConsolidated (memoryWindow / 2) =
        (messages.drop lastConsolidated).take
          (messages.length - memoryWindow / 2 - lastConsolidated)) ∧
    (pySliceNegStop messages lastConsolidated (memoryWindow / 2) = [] →
      (consolidateMemory env memoryWindow messages lastConsolidated false).1 =
          lastConsolidated ∧
        (consolidateMemory env memoryWindow messages lastConsolidated false).2 ≠
          ConsOutcome.done) ∧
    ((consolidateMemory env memoryWindow messages lastConsolidated archiveAll).2 =
        ConsOutcome.done →
      (consolidateMemory env memoryWindow messages lastConsolidated archiveAll).1 =
        if archiveAll then 0 else messages.length - memoryWindow / 2) ∧
    (∀ e, (consolidateMemory env memoryWindow messages lastConsolidated archiveAll).2 =
        ConsOutcome.failed e →
      (consolidateMemory env memoryWindow messages lastConsolidated archiveAll).1 =
        lastConsolidated) := by
  refine ⟨?_, ?_, ?_, ?_⟩
  · intro hk
    rw [pySliceNegStop]
    have : ¬ memoryWindow / 2 = 0 := by omega
    rw [if_neg this]
  · intro hempty
    rw [consolidateMemory, if_neg (by simp)]
    simp only
    split
    · exact ⟨rfl, by simp⟩
    · split
      · exact ⟨rfl, by simp⟩
      · rw [if_pos (by rw [hempty]; rfl)]
        exact ⟨rfl, by simp⟩
  · intro hdone
    rcases consolidateMemory_spec env memoryWindow messages lastConsolidated archiveAll
      with h | ⟨oc, hoc, hr⟩
    · rw [h]
    · rw [hr] at hdone
      exact absurd hdone hoc
  · intro e hfail
    rcases consolidateMemory_spec env memoryWindow messages lastConsolidated archiveAll
      with h | ⟨oc, hoc, hr⟩
    · rw [h] at hfail
      exact absurd hfail (by simp)
    · rw [hr]

/-- The environment for the C3 counterexample and witness: the LLM returns a
well-formed consolidation object and every file operation succeeds. -/
def c3OkEnv : ConsolidateEnv where
  readLongTerm := ""
  llm := fun _ => .ok (some "x")
  parse := fun _ => .ok (.obj [("history_entry", .str "h"), ("memory_update", .str "m")])
  appendHistory := fun _ => .ok ()
  writeLongTerm := fun _ => .ok ()

def c3CexMsgs : List SessMsg :=
  [⟨"user", "hello", "2026-01-01 00:00", []⟩, ⟨"assistant", "hi", "2026-01-01 00:01", []⟩]

/-- C3 counterexample: with `memory_window = 1` (so `keep = 0`) and two
messages, the spec's slice `messages[0 : len − keep]` contains both messages,
but the code's slice `messages[0:-0]` is empty, so consolidation skips and the
cursor stays 0 instead of being processed and advanced to `len − keep = 2`. -/
theorem c3_consolidation_cursor_counterexample :
    ((c3CexMsgs.drop 0).take (c3CexMsgs.length - 1 / 2 - 0)).length = 2 ∧
      pySliceNegStop c3CexMsgs 0 (1 / 2) = [] ∧
      consolidateMemory c3OkEnv 1 c3CexMsgs 0 false = (0, .skippedEmptySlice) := by
  decide

/-- Witness for C3 (amended): a successful normal-mode consolidation of four
messages with `memory_window = 4` advances the cursor to `4 − 2 = 2`. -/
theorem c3_consolidation_cursor_witness :
    (consolidateMemory c3OkEnv 4 (c3CexMsgs ++ c3CexMsgs) 0 false).2 = ConsOutcome.done ∧
      (consolidateMemory c3OkEnv 4 (c3CexMsgs ++ c3CexMsgs) 0 false).1 =
        if false then 0 else (c3CexMsgs ++ c3CexMsgs).length - 4 / 2 :=
  ⟨by decide,
    (c3_consolidation_cursor c3OkEnv 4 (c3CexMsgs ++ c3CexMsgs) 0 false).2.2.1 (by decide)⟩

/-! ## `AgentLoop._process_message` and `AgentLoop._process_system_message`

The session store (`nanobot/session/manager.py`) and the bus event types
(`nanobot/bus/events.py`) are not under `src/`; their small surface is
modelled from the spec where noted.  The provider/tool/session oracles are
collected in a `ProcessEnv`. -/

structure InboundMsg where
  channel : String
  senderId : String
  chatId : String
  content : String
deriving DecidableEq

structure OutboundMsg where
  channel : String
  chatId : String
  content : String
deriving DecidableEq

structure Session where
  key : String
  messages : List SessMsg
  lastConsolidated : Nat
deriving DecidableEq

/-- Modelled from the spec: `Session.clear()` (session/manager.py is not under
src/) — spec §4.2: "`clear()` wipes `messages[]` and resets
`last_consolidated_index=0`". -/
def Session.clear (s : Session) : Session :=
  { s with messages := [], lastConsolidated := 0 }

/-- Modelled from the spec: `Session.add_message(role, content, tools_used)`
(session/manager.py is not under src/) — spec §3: `messages[]` is an ordered,
append-only sequence of `{role, content, timestamp, tools_used?}` records. -/
def Session.addMessage (s : Session) (role content : String)
    (toolsUsed : List String) (now : String) : Session :=
  { s with messages := s.messages ++ [⟨role, content, now, toolsUsed⟩] }

/-- Modelled from the spec: `InboundMessage.session_key` (bus/events.py is not
under src/) — spec §3: "`session_key = channel:chat_id`". -/
def InboundMsg.sessionKey (m : InboundMsg) : String :=
  m.channel ++ ":" ++ m.chatId

/-- Python `chat_id.split(":", 1)`: split at the first colon, when present. -/
def splitFirstColon (s : String) : Option (String × String) :=
  match findSub [':'] s.data with
  | none => none
  | some (before, after) => some (String.mk before, String.mk after)

structure ProcessEnv where
  /-- `self.sessions.get_or_create` -/
  getSession : String → Session
  provider : Nat → LLMResponse
  exec : String → JsonVal → String
  /-- The tool-forcing keyword heuristic of `_run_agent_loop` as a function of
  the current user message (its literal keyword lists are immaterial here). -/
  forcedOf : String → Bool
  maxIterations : Nat
  memoryWindow : Nat
  /-- `self._consolidating` -/
  consolidating : List String
  /-- whether the `message` tool already sent an outbound message this turn -/
  messageSentInTurn : Bool
  /-- timestamp oracle for appended messages -/
  now : String

/-- The observable effects of processing one inbound message. -/
structure ProcResult where
  outbound : Option OutboundMsg
  savedSessions : List Session
  /-- scheduled `_consolidate_memory` tasks: (messages snapshot, archive_all) -/
  scheduledConsolidations : List (List SessMsg × Bool)
  llmCalls : Nat
  sessionKeyUsed : Option String
deriving DecidableEq

/-- `AgentLoop._process_system_message`. -/
def processSystemMessage (env : ProcessEnv) (msg : InboundMsg) : ProcResult :=
  let origin : String × String :=
    match splitFirstColon msg.chatId with
    | some (oc, oid) => (oc, oid)
    | none => ("cli", msg.chatId)
  let sessionKey := origin.1 ++ ":" ++ origin.2
  let session := env.getSession sessionKey
  let run := runAgentLoop [] env.provider env.exec (env.forcedOf msg.content) env.maxIterations
  let final := run.1.getD "Background task completed."
  let session' :=
    (session.addMessage "user" ("[System: " ++ msg.senderId ++ "] " ++ msg.content) [] env.now).addMessage
      "assistant" final [] env.now
  { outbound := some ⟨origin.1, origin.2, final⟩,
    savedSessions := [session'],
    scheduledConsolidations := [],
    llmCalls := llmCount run.2.events,
    sessionKeyUsed := some sessionKey }

/-- The non-command path of `_process_message`: possibly schedule a background
consolidation, run the agent loop, append the user and assistant turns, save,
and reply (suppressed when the `message` tool already replied). -/
def processGeneral (env : ProcessEnv) (msg : InboundMsg) (key : String) : ProcResult :=
  let session := env.getSession key
  let scheduled :=
    if decide (env.memoryWindow < session.messages.length) && !(env.consolidating.contains key)
    then [(session.messages, false)] else []
  let run := runAgentLoop [] env.provider env.exec (env.forcedOf msg.content) env.maxIterations
  let final := run.1.getD "I've completed processing but have no response to give."
  let session' :=
    (session.addMessage "user" msg.content [] env.now).addMessage
      "assistant" final run.2.toolsUsed env.now
  { outbound := if env.messageSentInTurn then none else some ⟨msg.channel, msg.chatId, final⟩,
    savedSessions := [session'],
    scheduledConsolidations := scheduled,
    llmCalls := llmCount run.2.events,
    sessionKeyUsed := some key }

/-- `AgentLoop._process_message`. -/
def processMessage (env : ProcessEnv) (msg : InboundMsg)
    (sessionKeyOverride : Option String) : ProcResult :=
  if msg.channel == "system" then processSystemMessage env msg
  else
    let key := sessionKeyOverride.getD msg.sessionKey
    let session := env.getSession key
    let cmd := pyLower (pyStrip msg.content)
    if cmd == "/new" then
      { outbound := some ⟨msg.channel, msg.chatId,
          "New session started. Memory consolidation in progress."⟩,
        savedSessions := [session.clear],
        scheduledConsolidations := [(session.messages, true)],
        llmCalls := 0,
        sessionKeyUsed := some key }
    else if cmd == "/help" then
      { outbound := some ⟨msg.channel, msg.chatId,
          "ğŸˆ nanobot commands:\n/new â€” Start a new conversation\n/help â€” Show available commands"⟩,
        savedSessions := [],
        scheduledConsolidations := [],
        llmCalls := 0,
        sessionKeyUsed := some key }
    else processGeneral env msg key

/-- C4: processing `/new` persists exactly the cleared session (zero messages,
cursor 0), schedules one archive-all consolidation over the snapshot of the
pre-clear messages, immediately replies with the fixed confirmation text on
the same channel/chat, and makes no LLM call. -/
theorem c4_new_command (env : ProcessEnv) (msg : InboundMsg)
    (hch : msg.channel ≠ "system") (hcmd : msg.content = "/new") :
    processMessage env msg none =
      { outbound := some ⟨msg.channel, msg.chatId,
          "New session started. Memory consolidation in progress."⟩,
        savedSessions := [{ env.getSession msg.sessionKey with
          messages := [], lastConsolidated := 0 }],
        scheduledConsolidations := [((env.getSession msg.sessionKey).messages, true)],
        llmCalls := 0,
        sessionKeyUsed := some msg.sessionKey } := by
  rw [processMessage, if_neg (by simpa using hch)]
  simp only [Option.getD, hcmd]
  rw [if_pos (by decide)]
  rfl

/-- C5: a `system`-channel message whose chat id contains a colon is routed by
splitting the chat id at the first colon: the session key is
`origin_channel:origin_chat_id` and the reply carries the origin channel and
chat id. -/
theorem c5_system_routing (env : ProcessEnv) (msg : InboundMsg)
    (hch : msg.channel = "system") (oc oid : String)
    (hsplit : splitFirstColon msg.chatId = some (oc, oid)) :
    (processMessage env msg none).sessionKeyUsed = some (oc ++ ":" ++ oid) ∧
      ∃ final, (processMessage env msg none).outbound = some ⟨oc, oid, final⟩ := by
  rw [processMessage, if_pos (by simp [hch])]
  rw [processSystemMessage]
  simp [hsplit]

def c45Env : ProcessEnv where
  getSession := fun k => ⟨k, [⟨"user", "old question", "2026-01-01", []⟩], 0⟩
  provider := textProvider fun _ => some "resp"
  exec := fun _ _ => "ok"
  forcedOf := fun _ => false
  maxIterations := 20
  memoryWindow := 50
  consolidating := []
  messageSentInTurn := false
  now := "2026-01-02"

/-- Witness for C4 at a concrete session and message. -/
theorem c4_new_command_witness :
    (⟨"discord", "u1", "42", "/new"⟩ : InboundMsg).channel ≠ "system" ∧
      processMessage c45Env ⟨"discord", "u1", "42", "/new"⟩ none =
        { outbound := some ⟨"discord", "42",
            "New session started. Memory consolidation in progress."⟩,
          savedSessions := [{ c45Env.getSession
            (InboundMsg.sessionKey ⟨"discord", "u1", "42", "/new"⟩) with
            messages := [], lastConsolidated := 0 }],
          scheduledConsolidations := [((c45Env.getSession
            (InboundMsg.sessionKey ⟨"discord", "u1", "42", "/new"⟩)).messages, true)],
          llmCalls := 0,
          sessionKeyUsed := some (InboundMsg.sessionKey ⟨"discord", "u1", "42", "/new"⟩) } :=
  ⟨by decide, c4_new_command c45Env ⟨"discord", "u1", "42", "/new"⟩ (by decide) rfl⟩

/-- Witness for C5 at a concrete system message. -/
theorem c5_system_routing_witness :
    splitFirstColon "discord:123" = some ("discord", "123") ∧
      ((processMessage c45Env ⟨"system", "subagent", "discord:123", "task done"⟩ none).sessionKeyUsed =
          some ("discord" ++ ":" ++ "123") ∧
        ∃ final,
          (processMessage c45Env ⟨"system", "subagent", "discord:123", "task done"⟩ none).outbound =
            some ⟨"discord", "123", final⟩) :=
  ⟨by decide,
    c5_system_routing c45Env ⟨"system", "subagent", "discord:123", "task done"⟩ rfl
      "discord" "123" (by decide)⟩

/-! ## `PlaywrightClient.get_snapshot` / `get_snapshot_dom`

The page is an oracle: `aria` is the `aria_snapshot()` call (an exception is
an `.error`), and `dom sel` is `document.querySelectorAll(sel)` in DOM order.
The injected JS of `get_snapshot_dom` is embedded as the walk below; the
`JSON.stringify`/`json.loads` round-trip is the identity in the model. -/

structure DomNode where
  tag : String
  text : String
  href : String
  /-- `el.getAttribute('role')`, `""` when absent -/
  roleAttr : String
  placeholder : String
  /-- truthiness of `el.offsetParent` -/
  visible : Bool
deriving DecidableEq

/-- An element as built by the injected JS. -/
structure JsElt where
  tag : String
  role : String
  text : String
  href : String
  placeholder : String
deriving DecidableEq

/-- A snapshot element (`{ref, role, name, tag, href?, placeholder?}`; the
aria strategy leaves `href`/`placeholder` empty). -/
structure SnapElement where
  ref : String
  role : String
  name : String
  tag : String
  href : String
  placeholder : String
deriving DecidableEq

/-- A `RefMap` entry (`tag`/`href` are only set by the DOM strategy). -/
structure RefInfo where
  role : String
  name : String
  nth : Nat
  tag : String
  href : String
deriving DecidableEq

inductive SnapResult where
  | err (msg : String)
  | ariaRes (elements : List SnapElement) (refMap : List (String × RefInfo)) (totalLines : Nat)
  | domRes (elements : List SnapElement) (refMap : List (String × RefInfo)) (total : Nat)
deriving DecidableEq

structure SnapshotEnv where
  connected : Bool
  aria : Except String String
  dom : String → List DomNode
  /-- an exception raised by `page.evaluate` in `get_snapshot_dom` -/
  domEvalExc : Option String

/-- The curated selector set of the injected JS. -/
def domSelectors : List String :=
  ["section.note-item", "a", "button", "[role=\"button\"]", "[role=\"link\"]",
   "input[type=\"button\"]", "input[type=\"submit\"]", "[onclick]", "[data-clickable=\"true\"]"]

/-- The inner `for (var i ...)` loop of the injected JS over one selector's
nodes: skip invisible nodes, empty/short texts and duplicate `(tag, text[:30])`
keys, push, and stop once `max_nodes` elements exist. -/
def domWalkNodes (cap : Nat) : List DomNode → List JsElt → List String →
    List JsElt × List String
  | [], acc, seen => (acc, seen)
  | el :: rest, acc, seen =>
    if !el.visible then domWalkNodes cap rest acc seen
    else
      let tag := el.tag
      let text := pyTake 100 (pyStrip el.text)
      let role := if el.roleAttr == "" then tag else el.roleAttr
      if text == "" && el.placeholder == "" && !(tag == "a") && !(tag == "section") then
        domWalkNodes cap rest acc seen
      else if decide (text.data.length < 2) && !(tag == "section") then
        domWalkNodes cap rest acc seen
      else
        let key := tag ++ "|" ++ pyTake 30 text
        if seen.contains key then domWalkNodes cap rest acc seen
        else
          let acc' := acc ++ [⟨tag, role, text, pyTake 100 el.href, el.placeholder⟩]
          if cap ≤ acc'.length then (acc', seen ++ [key])
          else domWalkNodes cap rest acc' (seen ++ [key])

/-- The outer `for (var s ...)` loop over the selector set. -/
def domWalkSelectors (cap : Nat) (dom : String → List DomNode) :
    List String → List JsElt → List String → List JsElt
  | [], acc, _ => acc
  | sel :: sels, acc, seen =>
    let r := domWalkNodes cap (dom sel) acc seen
    if cap ≤ r.1.length then r.1
    else domWalkSelectors cap dom sels r.1 r.2

def refName (i : Nat) : String := "e" ++ toString (i + 1)

/-- The Python side of `get_snapshot_dom`: refs `e1, e2, …` in order. -/
def domElements (js : List JsElt) : List SnapElement :=
  js.enum.map fun p =>
    ⟨refName p.1, p.2.role, pyTake 60 p.2.text, p.2.tag, p.2.href, p.2.placeholder⟩

def domRefMap (js : List JsElt) : List (String × RefInfo) :=
  js.enum.map fun p =>
    (refName p.1, ⟨p.2.role, p.2.text, p.1, p.2.tag, p.2.href⟩)

/-- `PlaywrightClient.get_snapshot_dom`. -/
def getSnapshotDom (env : SnapshotEnv) (maxNodes : Nat) : SnapResult :=
  if !env.connected then .err "Not connected"
  else
    match env.domEvalExc with
    | some e => .err ("DOM snapshot failed: " ++ e)
    | none =>
      let js := domWalkSelectors maxNodes env.dom domSelectors [] []
      .domRes (domElements js) (domRefMap js) js.length

/-- Python `str.split('\n')`. -/
def splitLinesPy (s : String) : List String :=
  (s.data.splitOn '\n').map String.mk

/-- The fallback gate of `get_snapshot`: the number of aria-snapshot lines
containing `'- link'` or `'- button'` as substrings. -/
def countLinkButtonLines (ariaText : String) : Nat :=
  ((splitLinesPy ariaText).filter fun l =>
    strContains l "- link" || strContains l "- button").length

def isWordChar (c : Char) : Bool :=
  c.isAlphanum || c == '_'

/-- The per-line regex `^(\s*-\s*)(\w+)(?:\s+"([^"]*)")?(.*)$` applied to the
stripped line (after the `startswith('- ')` guard), returning the role word
and the optional quoted name (`\w` is modelled as the ASCII word characters;
aria roles are ASCII). -/
def ariaParseLine (line : String) : Option (String × Option String) :=
  let stripped := pyStrip line
  if !pyStartsWith "- " stripped then none
  else
    match stripped.data with
    | '-' :: rest =>
      let rest₂ := rest.dropWhile isPyWS
      let word := rest₂.takeWhile isWordChar
      if word.isEmpty then none
      else
        let after := rest₂.drop word.length
        let ws := after.takeWhile isPyWS
        let nameOpt : Option String :=
          if ws.isEmpty then none
          else
            match after.drop ws.length with
            | '"' :: tail =>
              let inner := tail.takeWhile fun c => !(c == '"')
              match tail.drop inner.length with
              | '"' :: _ => some (String.mk inner)
              | _ => none
            | _ => none
        some (String.mk word, nameOpt)
    | _ => none

def interactiveRoles : List String :=
  ["button", "link", "textbox", "checkbox", "radio", "combobox", "listbox", "menuitem",
   "option", "searchbox", "slider", "spinbutton", "switch", "tab", "treeitem"]

def contentRoles : List String :=
  ["heading", "cell", "gridcell", "row", "columnheader", "description"]

def trackerGet (tracker : List ((String × String) × Nat)) (key : String × String) : Nat :=
  match tracker.find? fun p => p.1 == key with
  | some p => p.2
  | none => 0

/-- The `for line in lines` loop of the aria strategy: filter by role, track
per-`(role, name)` occurrence counts as `nth`, assign `e<counter>` refs, and
stop at `max_nodes`. -/
def ariaCollect (interactive : Bool) (maxNodes : Nat) :
    List String → Nat → List ((String × String) × Nat) →
    List SnapElement → List (String × RefInfo) →
    List SnapElement × List (String × RefInfo)
  | [], _, _, elems, rmap => (elems, rmap)
  | line :: rest, counter, tracker, elems, rmap =>
    match ariaParseLine line with
    | none => ariaCollect interactive maxNodes rest counter tracker elems rmap
    | some (roleRaw, nameRaw) =>
      -- `groups[2] if len(groups) > 2 and groups[2] else None`: empty ⇒ None
      let name : Option String :=
        match nameRaw with
        | some s => if s == "" then none else some s
        | none => none
      if pyStartsWith "/" roleRaw then
        ariaCollect interactive maxNodes rest counter tracker elems rmap
      else
        let role := pyLower roleRaw
        let keep :=
          if interactive then interactiveRoles.contains role
          else
            (interactiveRoles.contains role || contentRoles.contains role) &&
              !(name == none && contentRoles.contains role)
        if !keep then ariaCollect interactive maxNodes rest counter tracker elems rmap
        else
          let key := (role, name.getD "")
          let count := trackerGet tracker key
          let tracker' := (key, count + 1) :: tracker
          let counter' := counter + 1
          let ref := "e" ++ toString counter'
          let elems' := elems ++ [⟨ref, role, pyTake 60 (name.getD ""), role, "", ""⟩]
          let rmap' := rmap ++ [(ref, ⟨role, name.getD "", count, "", ""⟩)]
          if maxNodes ≤ counter' then (elems', rmap')
          else ariaCollect interactive maxNodes rest counter' tracker' elems' rmap'

/-- `PlaywrightClient.get_snapshot` (with `use_dom=False`; the
`save_scroll` parameter is unused by the source beyond API compatibility).
An empty aria snapshot, and an aria snapshot whose `'- link'`/`'- button'`
line count is below 10, both fall back to the DOM strategy.  (The
`"Empty ARIA snapshot"` error branch of the source is unreachable: the empty
case already returned the DOM result.) -/
def getSnapshot (env : SnapshotEnv) (maxNodes : Nat) (interactive : Bool)
    (useDom : Bool) : SnapResult :=
  if !env.connected then .err "Not connected"
  else if useDom then getSnapshotDom env maxNodes
  else
    match env.aria with
    | .error e => .err ("Snapshot failed: " ++ e)
    | .ok ariaText =>
      if ariaText == "" then getSnapshotDom env maxNodes
      else if countLinkButtonLines ariaText < 10 then getSnapshotDom env maxNodes
      else
        let lines := splitLinesPy ariaText
        let r := ariaCollect interactive maxNodes lines 0 [] [] []
        .ariaRes r.1 r.2 lines.length

theorem domWalkNodes_le (cap : Nat) :
    ∀ (nodes : List DomNode) (acc : List JsElt) (seen : List String),
      acc.length < cap → (domWalkNodes cap nodes acc seen).1.length ≤ cap := by
  intro nodes
  induction nodes with
  | nil =>
    intro acc seen h
    rw [domWalkNodes]
    exact Nat.le_of_lt h
  | cons el rest ih =>
    intro acc seen h
    simp only [domWalkNodes]
    repeat' split
    all_goals try dsimp only
    all_goals first
      | exact ih _ _ h
      | (simp only [List.length_append, List.length_cons, List.length_nil]
         omega)
      | (apply ih _ _
         rename_i hcap
         simp only [List.length_append, List.length_cons, List.length_nil] at hcap ⊢
         omega)

theorem domWalkSelectors_le (cap : Nat) (dom : String → List DomNode) :
    ∀ (sels : List String) (acc : List JsElt) (seen : List String),
      acc.length < cap → (domWalkSelectors cap dom sels acc seen).length ≤ cap := by
  intro sels
  induction sels with
  | nil =>
    intro acc seen h
    rw [domWalkSelectors]
    omega
  | cons sel sels ih =>
    intro acc seen h
    simp only [domWalkSelectors]
    split
    · exact domWalkNodes_le cap (dom sel) acc seen h
    · rename_i hlt
      apply ih
      omega

theorem domElements_refs (js : List JsElt) :
    (domElements js).map SnapElement.ref = (List.range js.length).map refName := by
  rw [domElements, List.map_map, ← List.enum_map_fst js, List.map_map]
  rfl

theorem domElements_length (js : List JsElt) :
    (domElements js).length = js.length := by
  rw [domElements, List.length_map, List.enum_length]

/-- C9 (amended): `get_snapshot` falls back to the DOM strategy when the aria
snapshot is empty, and when fewer than 10 of its lines contain `'- link'` or
`'- button'` as substrings (the code's proxy for "fewer than 10 link/button
refs"); the DOM strategy assigns refs `e1, e2, …` in walk order and is capped
at `max_nodes`. -/
theorem c9_snapshot_dom_fallback (env : SnapshotEnv) (maxNodes : Nat)
    (interactive : Bool) (hm : 1 ≤ maxNodes) :
    (∀ ariaText, env.connected = true → env.aria = .ok ariaText →
      ((ariaText = "" →
          getSnapshot env maxNodes interactive false = getSnapshotDom env maxNodes) ∧
        (countLinkButtonLines ariaText < 10 →
          getSnapshot env maxNodes interactive false = getSnapshotDom env maxNodes))) ∧
    (∀ elements rmap total,
      getSnapshotDom env maxNodes = .domRes elements rmap total →
        elements.length ≤ maxNodes ∧
        elements.map SnapElement.ref = (List.range elements.length).map refName) := by
  constructor
  · intro ariaText hconn haria
    have hgoal : ∀ hwhy : ariaText = "" ∨ countLinkButtonLines ariaText < 10,
        getSnapshot env maxNodes interactive false = getSnapshotDom env maxNodes := by
      intro hwhy
      rw [getSnapshot, if_neg (by simp [hconn]), if_neg (by simp)]
      rw [haria]
      show (if ariaText == "" then getSnapshotDom env maxNodes
        else if countLinkButtonLines ariaText < 10 then getSnapshotDom env maxNodes
        else _) = _
      by_cases hempty : ariaText = ""
      · rw [if_pos (by simp [hempty])]
      · rw [if_neg (by simp [hempty])]
        rcases hwhy with h | h
        · exact absurd h hempty
        · rw [if_pos h]
    exact ⟨fun h => hgoal (Or.inl h), fun h => hgoal (Or.inr h)⟩
  · intro elements rmap total h
    rw [getSnapshotDom] at h
    split at h
    · exact absurd h (by simp)
    · split at h
      · exact absurd h (by simp)
      · injection h with h1 h2 h3
        subst h1
        constructor
        · rw [domElements_length]
          exact domWalkSelectors_le maxNodes env.dom domSelectors [] [] (by simpa using hm)
        · rw [domElements_refs, domElements_length]

def c9Env : SnapshotEnv where
  connected := true
  aria := .ok (String.intercalate "\n" (List.replicate 10 "- linkage \"a\""))
  dom := fun sel => if sel == "a" then [⟨"a", "Example link text", "http://x", "", "", true⟩] else []
  domEvalExc := none

/-- C9 counterexample: an aria snapshot of 10 lines `- linkage "a"` contains
the substring `'- link'` on every line, so the gate counts 10 and does NOT
fall back — yet the accessibility strategy produces 0 link/button refs
(`linkage` is not an interactive role), so under the claim as stated (fewer
than 10 link/button refs produced ⇒ fall back) `get_snapshot` would have had
to return the DOM result, which here is non-empty and different. -/
theorem c9_snapshot_dom_fallback_counterexample :
    getSnapshot c9Env 50 true false = .ariaRes [] [] 10 ∧
      getSnapshotDom c9Env 50 =
        .domRes [⟨"e1", "a", "Example link text", "a", "http://x", ""⟩]
          [("e1", ⟨"a", "Example link text", 0, "a", "http://x"⟩)] 1 ∧
      getSnapshot c9Env 50 true false ≠ getSnapshotDom c9Env 50 := by
  decide

def c9FallbackEnv : SnapshotEnv where
  connected := true
  aria := .ok "- link \"x\""
  dom := fun sel => if sel == "a" then [⟨"a", "Example link text", "http://x", "", "", true⟩] else []
  domEvalExc := none

/-- Witness for C9 (amended): a single-`link` aria snapshot (count 1 < 10)
falls back to the DOM strategy. -/
theorem c9_snapshot_dom_fallback_witness :
    (1 ≤ 50 ∧ countLinkButtonLines "- link \"x\"" < 10) ∧
      getSnapshot c9FallbackEnv 50 true false = getSnapshotDom c9FallbackEnv 50 :=
  ⟨⟨by decide, by decide⟩,
    ((c9_snapshot_dom_fallback c9FallbackEnv 50 true (by decide)).1
      "- link \"x\"" rfl rfl).2 (by decide)⟩

/-! ## `BrowserTool.execute`

Every awaited call (browser manager, Playwright client) is an oracle stored
in a `BrowserEnv`; its returned dict is modelled by a small record whose
`error` field is the rendered `result.get("error")` (`"None"` when absent,
matching the f-string output).  A raised exception anywhere inside the `try`
is modelled by `exc`: when set, the result is the `except` branch's
`"[ERROR] {e}"`.  Joins (`"\n".join`) are `joinLines`. -/

/-- `{success, message?, error}`-shaped client results. -/
structure RMsg where
  success : Bool := false
  message : String := ""
  error : String := "None"
deriving DecidableEq

structure RStart where
  success : Bool := false
  message : String := ""
  error : String := "None"
  pid : Option Int := none
deriving DecidableEq

structure RStatus where
  running : Bool := false
  port : Int := 18800
  browser : String := "chrome"
deriving DecidableEq

structure REval where
  success : Bool := false
  result : String := ""
  error : String := "None"
deriving DecidableEq

structure RWait where
  success : Bool := false
  url : String := ""
  error : String := "None"
deriving DecidableEq

structure RList where
  success : Bool := false
  items : List String := []
  error : String := "None"
deriving DecidableEq

structure RPath where
  success : Bool := false
  path : String := ""
  error : String := "None"
deriving DecidableEq

structure RClick where
  success : Bool := false
  method : String := "unknown"
  currentUrl : String := ""
  navigatedTo : String := ""
  error : String := "None"
deriving DecidableEq

structure RCookies where
  success : Bool := false
  cookies : List (String × String × String) := []
  error : String := "None"
deriving DecidableEq

structure RStorage where
  success : Bool := false
  storage : List (String × String) := []
  error : String := "None"
deriving DecidableEq

/-- The `act` request: either an already-parsed object or a JSON string
(whose parse may fail, as `json.loads` would). -/
inductive ActRequest where
  | obj (kvs : List (String × JsonVal))
  | str (s : String)

structure BrowserEnv where
  /-- an exception raised by an awaited call inside the `try` -/
  exc : Option String := none
  managerStart : RStart := {}
  managerStop : RMsg := {}
  managerStatus : RStatus := {}
  /-- `(name, port, browser)` rows of `list_profiles()` -/
  profiles : List (String × Int × String) := []
  /-- the rendered `result.get("error")` of `navigate(url)`; `""` when absent -/
  navigateError : String → String := fun _ => ""
  getContent : String := ""
  /-- truthiness of the dict returned by `query_selector(sel)` (the Playwright
  client returns a non-empty dict in both outcomes, so this is `true` there) -/
  searchBoxFound : String → Bool := fun _ => true
  /-- `(id, title)` rows of `list_tabs()` and the current id -/
  tabs : List (String × String) := []
  currentTab : String := ""
  createTab : RMsg := {}
  switchTab : RMsg := {}
  closeTab : RMsg := {}
  hover : RMsg := {}
  scroll : RMsg := {}
  scrollToSelector : RMsg := {}
  resize : RMsg := {}
  evalRes : REval := {}
  cookiesRes : RCookies := {}
  localStorage : RStorage := {}
  sessionStorage : RStorage := {}
  waitRes : RWait := {}
  consoleRes : RList := {}
  errorsRes : RList := {}
  downloadRes : RPath := {}
  uploadRes : RPath := {}
  traceStart : RMsg := {}
  traceStop : RPath := {}
  screenshotRes : RMsg := {}
  /-- `get_snapshot_dom(max_nodes=50)`: an `"error"` key or the elements -/
  snapshotDom : Except String (List SnapElement) := .ok []
  clickByRef : RClick := {}
  clickElement : RMsg := {}
  typeByRef : RMsg := {}
  typeText : RMsg := {}
  /-- `json.loads` for a string-valued `act` request (`none` = it raised) -/
  parseJson : String → Option JsonVal := fun _ => none
  /-- `time.strftime("%Y%m%d_%H%M%S")` / `int(time.time())` oracle -/
  timestamp : String := "20260101_000000"
  workspace : String := "/ws"

/-- The tool-call keyword arguments (absent keys are `none`). -/
structure KW where
  url : Option String := none
  targetUrl : Option String := none
  target_url : Option String := none
  query : Option String := none
  text : Option String := none
  keyword : Option String := none
  key : Option String := none
  tab : Option String := none
  tab_id : Option String := none
  ref : Option String := none
  selector : Option String := none
  x : Int := 0
  y : Int := 0
  width : Int := 1280
  height : Int := 720
  expression : Option String := none
  code : Option String := none
  type : Option String := none
  timeout : Int := 30000
  load : Bool := false
  path : Option String := none
  file : Option String := none
  mode : Option String := none
  browser : Option String := none
  port : Option Int := none
  cdp_port : Option Int := none
  profile : Option String := none
  headless : Option Bool := none
  request : Option ActRequest := none
deriving Inhabited

/-- Python `a or b or … or default` over `kwargs.get` results (`None` and
`""` are falsy). -/
def firstTruthy (xs : List (Option String)) (dflt : String) : String :=
  match xs with
  | [] => dflt
  | x :: rest =>
    match x with
    | some s => if s == "" then firstTruthy rest dflt else s
    | none => firstTruthy rest dflt

/-- `"\n".join`. -/
def joinLines : List String → String
  | [] => ""
  | [x] => x
  | x :: y :: xs => x ++ "\n" ++ joinLines (y :: xs)

def digitsToNat (l : List Char) : Option Nat :=
  if l.isEmpty then none
  else if l.all Char.isDigit then
    some (l.foldl (fun acc c => acc * 10 + (c.toNat - 48)) 0)
  else none

/-- Python `int(s)` on the simple numeric strings relevant here (tab indices);
`none` models the raised `ValueError`. -/
def pyParseInt (s : String) : Option Int :=
  match s.data with
  | '-' :: ds => (digitsToNat ds).map fun n => -(n : Int)
  | '+' :: ds => (digitsToNat ds).map fun n => (n : Int)
  | ds => (digitsToNat ds).map fun n => (n : Int)

def replaceSpacePlus (s : String) : String :=
  String.mk (s.data.map fun c => if c == ' ' then '+' else c)

def strContainsChar (s : String) (c : Char) : Bool :=
  s.data.contains c

/-- `result.get(key, "")` as a string (non-string values compare unequal to
the `"click"`/`"fill"` literals, like in Python). -/
def dictGetStr (kvs : List (String × JsonVal)) (key : String) : String :=
  match dictGet kvs key with
  | .str s => s
  | _ => ""

/-- Python's type name, for the `AttributeError` raised by `.get` on a
non-dict `json.loads` result. -/
def pyTypeName : JsonVal → String
  | .null => "NoneType"
  | .bool _ => "bool"
  | .num _ => "int"
  | .str _ => "str"
  | .arr _ => "list"
  | .obj _ => "dict"

/-- `t1`/`t2`-style tab ids are resolved to real ids via `list_tabs()`;
a failed `int()` parse or an out-of-range index leaves the id unchanged
(the bare `except: pass`). -/
def resolveTabId (env : BrowserEnv) (tabId : String) : String :=
  if pyStartsWith "t" tabId then
    match pyParseInt (String.mk tabId.data.tail) with
    | some n =>
      let idx : Int := n - 1
      if 0 ≤ idx && idx < (env.tabs.length : Int) then
        match env.tabs.get? idx.toNat with
        | some t => t.1
        | none => tabId
      else tabId
    | none => tabId
  else tabId

def searchSelectors : List String :=
  ["input[type=\"search\"]", "input[type=\"text\"]",
   "input[placeholder*=\"搜索\"]", "input[placeholder*=\"Search\"]",
   "#twotabsearchtextbox"]

/-- The `search` action: a site-specific search URL when one matches, else a
fallback navigation (whose result is ignored) and the search-box loop. -/
def searchAction (env : BrowserEnv) (kw : KW) : String :=
  let query := firstTruthy [kw.query, kw.text, kw.keyword] ""
  let url := kw.url.getD ""
  let direct : Option String :=
    if url == "" then none
    else
      let urlLower := pyLower url
      if strContains urlLower "amazon" then
        some ("https://www.amazon.com/s?k=" ++ replaceSpacePlus query)
      else if strContains urlLower "xiaohongshu" || strContains url "小红书" ||
          strContains query "小红书" then
        some ("https://www.xiaohongshu.com/search_result?keyword=" ++ query)
      else if strContains urlLower "youtube" then
        some ("https://www.youtube.com/results?search_query=" ++ replaceSpacePlus query)
      else if strContains urlLower "ebay" then
        some ("https://www.ebay.com/sch/i.html?_nkw=" ++ replaceSpacePlus query)
      else none
  match direct with
  | some _ => "[VERIFIED] Searched: " ++ query ++ "\n\n" ++ pyTake 800 env.getContent
  | none =>
    match searchSelectors.find? fun sel => env.searchBoxFound sel with
    | some _ => "[VERIFIED] Searched: " ++ query ++ "\n\n" ++ pyTake 800 env.getContent
    | none => "[FAILED] No search box found"

/-- One line of the `snapshot` listing (DOM elements carry no `type` key, so
`ptype` is always empty there). -/
def snapLine (el : SnapElement) : String :=
  let base := el.ref ++ " <" ++ el.tag ++ ">"
  let base :=
    if el.placeholder == "" then base
    else base ++ " placeholder=\"" ++ pyTake 20 el.placeholder ++ "\""
  if el.name == "" then base
  else base ++ " \"" ++ pyTake 40 el.name ++ "...\""

/-- The `snapshot` action: DOM snapshot listing (or its `"error"` key). -/
def snapshotAction (env : BrowserEnv) : String :=
  match env.snapshotDom with
  | .error e => "[ERROR] " ++ e
  | .ok elements =>
    joinLines ((["[PAGE SNAPSHOT with refs]",
      "Found " ++ toString elements.length ++ " clickable elements", ""] ++
      (elements.take 30).map snapLine ++
      ["", "Use ref (e1, e2...) for click/type actions"]).take 50)

/-- The `act` action body once the request is a dict. -/
def actOn (env : BrowserEnv) (kvs : List (String × JsonVal)) : String :=
  let kind := dictGetStr kvs "kind"
  let ref := dictGetStr kvs "ref"
  if kind == "click" && ref != "" then
    if env.clickByRef.success then "[VERIFIED] Clicked " ++ ref
    else "[FAILED] " ++ env.clickByRef.error
  else if kind == "fill" && ref != "" then
    if env.typeByRef.success then
      "[VERIFIED] Filled " ++ ref ++ ": " ++ dictGetStr kvs "value"
    else "[FAILED] " ++ env.typeByRef.error
  else "Error: act requires kind=click/fill and ref"

/-- The `start` branch. -/
def startAction (env : BrowserEnv) : String :=
  let r := env.managerStart
  if r.success then
    match r.pid with
    | some pid =>
      if pid == 0 then "[VERIFIED] " ++ r.message
      else "[VERIFIED] " ++ r.message ++ " (PID: " ++ toString pid ++ ")"
    | none => "[VERIFIED] " ++ r.message
  else "[FAILED] " ++ r.error

/-- The `stop` branch. -/
def stopAction (env : BrowserEnv) : String :=
  let r := env.managerStop
  if r.success then "[VERIFIED] " ++ r.message
  else "[FAILED] " ++ r.error

/-- The first (reachable) `status` branch. -/
def statusAction (env : BrowserEnv) : String :=
  let r := env.managerStatus
  if r.running then
    "[BROWSER RUNNING] Port: " ++ toString r.port ++ ", Browser: " ++ r.browser
  else
    "[BROWSER OFFLINE] Port: " ++ toString r.port ++
      " - Use action=start to launch browser"

/-- The `profiles` branch. -/
def profilesAction (env : BrowserEnv) : String :=
  joinLines ("[PROFILES]" ::
    env.profiles.map fun p =>
      "  " ++ p.1 ++ ": port=" ++ toString p.2.1 ++ ", browser=" ++ p.2.2)

/-- The `navigate`/`open` branch. -/
def navigateAction (env : BrowserEnv) (kw : KW) : String :=
  let url := firstTruthy [kw.url, kw.targetUrl, kw.target_url] ""
  if url == "" then "Error: URL required"
  else
    let error := env.navigateError url
    if error != "" then "[FAILED] " ++ error
    else
      let content := env.getContent
      let title := if content != "" then pyTake 100 content else "Page loaded"
      "[VERIFIED] Navigated to: " ++ url ++ "\n" ++ pyTake 100 title

/-- The `press` branch. -/
def pressAction (kw : KW) : String :=
  let key := kw.key.getD ""
  if key == "" then "Error: key required"
  else "[VERIFIED] Pressed: " ++ key

/-- The `tabs` branch. -/
def tabsAction (env : BrowserEnv) : String :=
  joinLines ("[TABS]" ::
    env.tabs.enum.map fun it =>
      "t" ++ toString (it.1 + 1) ++ ": " ++ pyTake 40 it.2.2 ++
        (if it.2.1 == env.currentTab then " ←" else ""))

/-- The `new_tab` branch (with the https auto-prefixing). -/
def newTabAction (env : BrowserEnv) (kw : KW) : String :=
  let url := firstTruthy [kw.url, kw.targetUrl] "about:blank"
  let url :=
    if url != "" && !pyStartsWith "http" url then
      if !strContains url "." then "https://www." ++ url ++ ".com"
      else if !pyStartsWith "www." url then "https://www." ++ url
      else "https://" ++ url
    else url
  if env.createTab.success then
    "[VERIFIED] Created new tab and opened " ++ url ++ ". NO need to navigate again!"
  else "[FAILED] " ++ env.createTab.error

/-- The `switch_tab` branch. -/
def switchTabAction (env : BrowserEnv) (kw : KW) : String :=
  let tabId := resolveTabId env (firstTruthy [kw.tab, kw.tab_id, kw.key] "")
  if env.switchTab.success then "[VERIFIED] Switched to tab: " ++ tabId
  else "[FAILED] " ++ env.switchTab.error

/-- The `close_tab` branch. -/
def closeTabAction (env : BrowserEnv) (kw : KW) : String :=
  let tabId := resolveTabId env (firstTruthy [kw.tab, kw.tab_id, kw.key] "")
  if env.closeTab.success then "[VERIFIED] Closed tab: " ++ tabId
  else "[FAILED] " ++ env.closeTab.error

/-- The `hover` branch. -/
def hoverAction (env : BrowserEnv) (kw : KW) : String :=
  let ref := firstTruthy [kw.ref, kw.key] ""
  if ref == "" then "Error: ref required"
  else if env.hover.success then "[VERIFIED] Hovered over " ++ ref
  else "[FAILED] " ++ env.hover.error

/-- The `scroll` branch. -/
def scrollAction (env : BrowserEnv) (kw : KW) : String :=
  let selector := kw.selector.getD ""
  let r := if selector != "" then env.scrollToSelector else env.scroll
  if r.success then "[VERIFIED] Scrolled"
  else "[FAILED] " ++ r.error

/-- The `resize` branch. -/
def resizeAction (env : BrowserEnv) (kw : KW) : String :=
  if env.resize.success then
    "[VERIFIED] Resized to " ++ toString kw.width ++ "x" ++ toString kw.height
  else "[FAILED] " ++ env.resize.error

/-- The `evaluate` branch. -/
def evaluateAction (env : BrowserEnv) (kw : KW) : String :=
  let expression := firstTruthy [kw.expression, kw.code] ""
  if expression == "" then "Error: expression required"
  else if env.evalRes.success then "[RESULT]\n" ++ env.evalRes.result
  else "[FAILED] " ++ env.evalRes.error

/-- The `cookies` branch. -/
def cookiesAction (env : BrowserEnv) : String :=
  if env.cookiesRes.success then
    joinLines ("[COOKIES]" ::
      (env.cookiesRes.cookies.take 20).map fun c =>
        "  " ++ c.1 ++ "=" ++ pyTake 30 c.2.1 ++ "... domain=" ++ c.2.2)
  else "[FAILED] " ++ env.cookiesRes.error

/-- The `storage` branch. -/
def storageAction (env : BrowserEnv) (kw : KW) : String :=
  let storageType := kw.type.getD "local"
  let r := if storageType == "session" then env.sessionStorage else env.localStorage
  if r.success then
    joinLines (("[" ++ pyUpper storageType ++ " STORAGE]") ::
      r.storage.map fun kv => "  " ++ kv.1 ++ ": " ++ pyTake 50 kv.2)
  else "[FAILED] " ++ r.error

/-- The `wait` branch. -/
def waitAction (env : BrowserEnv) (kw : KW) : String :=
  let url := kw.url.getD ""
  let selector := kw.selector.getD ""
  let r := env.waitRes
  if r.success && url != "" then "[VERIFIED] URL matched: " ++ r.url
  else if r.success && selector != "" then "[VERIFIED] Selector found: " ++ selector
  else if r.success && kw.load then "[VERIFIED] Page loaded"
  else "[FAILED] " ++ r.error

/-- The `console` branch. -/
def consoleAction (env : BrowserEnv) : String :=
  let r := env.consoleRes
  if r.success then
    if r.items.isEmpty then "[CONSOLE] No messages"
    else joinLines ("[CONSOLE]" :: r.items.take 20)
  else "[FAILED] " ++ r.error

/-- The `errors` branch. -/
def errorsAction (env : BrowserEnv) : String :=
  let r := env.errorsRes
  if r.success then
    if r.items.isEmpty then "[ERRORS] No page errors"
    else joinLines ("[PAGE ERRORS]" :: r.items.take 10)
  else "[FAILED] " ++ r.error

/-- The `download` branch. -/
def downloadAction (env : BrowserEnv) (kw : KW) : String :=
  let url := kw.url.getD ""
  if url == "" then "Error: url required"
  else if env.downloadRes.success then
    "[VERIFIED] Downloaded to: " ++ env.downloadRes.path
  else "[FAILED] " ++ env.downloadRes.error

/-- The `upload` branch. -/
def uploadAction (env : BrowserEnv) (kw : KW) : String :=
  let selector := kw.selector.getD ""
  let filePath := firstTruthy [kw.path, kw.file] ""
  if selector == "" then "Error: selector required"
  else if filePath == "" then "Error: path required"
  else if env.uploadRes.success then "[VERIFIED] Uploaded: " ++ env.uploadRes.path
  else "[FAILED] " ++ env.uploadRes.error

/-- The `trace` branch. -/
def traceAction (env : BrowserEnv) (kw : KW) : String :=
  let mode := kw.mode.getD "stop"
  let path :=
    match kw.path with
    | some p => if p == "" then env.workspace ++ "/traces/trace_" ++ env.timestamp ++ ".json" else p
    | none => env.workspace ++ "/traces/trace_" ++ env.timestamp ++ ".json"
  if mode == "start" then
    if env.traceStart.success then "[VERIFIED] Trace started: " ++ path
    else "[FAILED] " ++ env.traceStart.error
  else
    if env.traceStop.success then "[VERIFIED] Trace saved to: " ++ env.traceStop.path
    else "[FAILED] " ++ env.traceStop.error

/-- The `screenshot` branch: note the success string has no bracketed tag. -/
def screenshotAction (env : BrowserEnv) : String :=
  let path := env.workspace ++ "/screenshots/screenshot_" ++ env.timestamp ++ ".png"
  if env.screenshotRes.success then "Screenshot saved to " ++ path
  else "[FAILED] " ++ env.screenshotRes.error

/-- The `get_text` branch. -/
def getTextAction (env : BrowserEnv) : String :=
  "[PAGE CONTENT]\n" ++ pyTake 5000 env.getContent

/-- The `act` branch: request parsing, then `actOn`. -/
def actAction (env : BrowserEnv) (kw : KW) : String :=
  match kw.request with
  | none => actOn env []
  | some (.obj kvs) => actOn env kvs
  | some (.str s) =>
    match env.parseJson s with
    | none => "Error: request must be JSON object"
    | some (.obj kvs) => actOn env kvs
    | some v =>
      "[ERROR] '" ++ pyTypeName v ++ "' object has no attribute 'get'"

/-- The `click` branch. -/
def clickAction (env : BrowserEnv) (kw : KW) : String :=
  let selector := kw.selector.getD ""
  let ref := firstTruthy [kw.ref, kw.key] ""
  if ref != "" then
    let r := env.clickByRef
    if r.success then
      if r.navigatedTo != "" then
        "[VERIFIED] Clicked " ++ ref ++ " (" ++ r.method ++ "), navigated to: " ++
          pyTake 80 r.navigatedTo
      else if r.currentUrl != "" then
        "[VERIFIED] Clicked " ++ ref ++ " (" ++ r.method ++ "), now at: " ++
          pyTake 60 r.currentUrl
      else "[VERIFIED] Clicked " ++ ref ++ " (" ++ r.method ++ ")"
    else "[FAILED] " ++ r.error ++ " (ref=" ++ ref ++ ")"
  else if selector != "" then
    if env.clickElement.success then "[VERIFIED] Clicked: " ++ selector
    else "[FAILED] " ++ env.clickElement.error
  else "Error: selector or ref required"

/-- The `type` branch. -/
def typeAction (env : BrowserEnv) (kw : KW) : String :=
  let selector := kw.selector.getD ""
  let ref := kw.ref.getD ""
  let text := kw.text.getD ""
  if ref != "" then
    if env.typeByRef.success then "[VERIFIED] Typed into ref " ++ ref ++ ": " ++ text
    else "[FAILED] " ++ env.typeByRef.error
  else if selector != "" then
    if env.typeText.success then "[VERIFIED] Typed: " ++ text
    else "[FAILED] " ++ env.typeText.error
  else "Error: selector/ref and text required"

/-- `BrowserTool.execute` over the oracle environment: the whole `try` body.
The source's if/elif chain on `action` is written as a match (each elif
compares `action` against a literal, so the two are the same function); the
source's duplicate `status` and `stop` arms near the bottom are dead code
(the earlier arms of the chain shadow them) and are omitted, while the
reachable part of the `stop or close` arm survives as the `"close"` case.
A raised exception (`env.exc`) yields the `except` branch's message. -/
def BrowserTool.execute (env : BrowserEnv) (action : String) (kw : KW) : String :=
  match env.exc with
  | some e => "[ERROR] " ++ e
  | none =>
    match action with
    | "start" => startAction env
    | "stop" => stopAction env
    | "status" => statusAction env
    | "profiles" => profilesAction env
    | "navigate" | "open" => navigateAction env kw
    | "search" => searchAction env kw
    | "press" => pressAction kw
    | "tabs" => tabsAction env
    | "new_tab" => newTabAction env kw
    | "switch_tab" => switchTabAction env kw
    | "close_tab" => closeTabAction env kw
    | "hover" => hoverAction env kw
    | "scroll" => scrollAction env kw
    | "resize" => resizeAction env kw
    | "evaluate" => evaluateAction env kw
    | "cookies" => cookiesAction env
    | "storage" => storageAction env kw
    | "wait" => waitAction env kw
    | "console" => consoleAction env
    | "errors" => errorsAction env
    | "download" => downloadAction env kw
    | "upload" => uploadAction env kw
    | "trace" => traceAction env kw
    | "screenshot" => screenshotAction env
    | "get_text" => getTextAction env
    | "snapshot" => snapshotAction env
    | "act" => actAction env kw
    | "click" => clickAction env kw
    | "type" => typeAction env kw
    | "close" => "Browser disconnected"
    | _ => "Unknown action: " ++ action

/-- The literal prefixes that classify `execute`'s return strings. -/
def okPrefixes : List String :=
  ["[VERIFIED]", "[FAILED]", "[ERROR]", "Error:", "Unknown action:",
   "[BROWSER RUNNING]", "[BROWSER OFFLINE]", "[PROFILES]", "[TABS]", "[RESULT]",
   "[COOKIES]", "[CONSOLE]", "[ERRORS]", "[PAGE ERRORS]", "[PAGE CONTENT]",
   "[PAGE SNAPSHOT", "Screenshot saved to ", "[OK]", "[OFFLINE]",
   "Browser disconnected"]

/-- A return string of `execute` either starts with one of the fixed literal
prefixes above or is the dynamically-headed storage listing. -/
def okReturn (s : String) : Prop :=
  (∃ p ∈ okPrefixes, pyStartsWith p s = true) ∨
  ∃ t r, s = "[" ++ pyUpper t ++ " STORAGE]" ++ r

theorem sw_mono {p s : String} (t : String) (h : pyStartsWith p s = true) :
    pyStartsWith p (s ++ t) = true := by
  simp only [pyStartsWith, List.isPrefixOf_iff_prefix, String.data_append] at h ⊢
  exact h.trans (List.prefix_append _ _)

theorem sw_join {p x : String} {xs : List String} (h : pyStartsWith p x = true) :
    pyStartsWith p (joinLines (x :: xs)) = true := by
  cases xs with
  | nil => exact h
  | cons y ys => exact sw_mono _ (sw_mono _ h)

theorem exists_sw_mono {s : String} (t : String)
    (h : ∃ p ∈ okPrefixes, pyStartsWith p s = true) :
    ∃ p ∈ okPrefixes, pyStartsWith p (s ++ t) = true := by
  obtain ⟨p, hp, hs⟩ := h
  exact ⟨p, hp, sw_mono t hs⟩

theorem exists_sw_join {x : String} (xs : List String)
    (h : ∃ p ∈ okPrefixes, pyStartsWith p x = true) :
    ∃ p ∈ okPrefixes, pyStartsWith p (joinLines (x :: xs)) = true := by
  obtain ⟨p, hp, hs⟩ := h
  exact ⟨p, hp, sw_join hs⟩

theorem okReturn_of_ex {s : String}
    (h : ∃ p ∈ okPrefixes, pyStartsWith p s = true) : okReturn s :=
  Or.inl h

theorem okReturn_storage (t : String) (xs : List String) :
    okReturn (joinLines (("[" ++ pyUpper t ++ " STORAGE]") :: xs)) := by
  right
  cases xs with
  | nil => exact ⟨t, "", (String.append_empty _).symm⟩
  | cons y ys =>
    exact ⟨t, "\n" ++ joinLines (y :: ys),
      String.append_assoc ("[" ++ pyUpper t ++ " STORAGE]") "\n" (joinLines (y :: ys))⟩

theorem searchAction_ok (env : BrowserEnv) (kw : KW) :
    okReturn (searchAction env kw) := by
  simp only [searchAction]
  repeat' split
  all_goals exact okReturn_of_ex (by (repeat (apply exists_sw_mono)); decide)

theorem snapshotAction_ok (env : BrowserEnv) : okReturn (snapshotAction env) := by
  unfold snapshotAction
  split
  · exact okReturn_of_ex (exists_sw_mono _ (by decide))
  · simp only [List.cons_append, List.nil_append]
    rw [show (50 : Nat) = 49 + 1 from rfl, List.take_succ_cons]
    exact okReturn_of_ex (exists_sw_join _ (by decide))

theorem actOn_ok (env : BrowserEnv) (kvs : List (String × JsonVal)) :
    okReturn (actOn env kvs) := by
  simp only [actOn]
  repeat' split
  all_goals exact okReturn_of_ex (by (repeat (apply exists_sw_mono)); decide)

theorem startAction_ok (env : BrowserEnv) : okReturn (startAction env) := by
  simp only [startAction]
  repeat' split
  all_goals exact okReturn_of_ex (by (repeat (apply exists_sw_mono)); decide)

theorem stopAction_ok (env : BrowserEnv) : okReturn (stopAction env) := by
  simp only [stopAction]
  repeat' split
  all_goals exact okReturn_of_ex (by (repeat (apply exists_sw_mono)); decide)

theorem statusAction_ok (env : BrowserEnv) : okReturn (statusAction env) := by
  simp only [statusAction]
  repeat' split
  all_goals exact okReturn_of_ex (by (repeat (apply exists_sw_mono)); decide)

theorem profilesAction_ok (env : BrowserEnv) : okReturn (profilesAction env) := by
  simp only [profilesAction]
  exact okReturn_of_ex (exists_sw_join _ (by decide))

theorem navigateAction_ok (env : BrowserEnv) (kw : KW) :
    okReturn (navigateAction env kw) := by
  simp only [navigateAction]
  repeat' split
  all_goals exact okReturn_of_ex (by (repeat (apply exists_sw_mono)); decide)

theorem pressAction_ok (kw : KW) : okReturn (pressAction kw) := by
  simp only [pressAction]
  repeat' split
  all_goals exact okReturn_of_ex (by (repeat (apply exists_sw_mono)); decide)

theorem tabsAction_ok (env : BrowserEnv) : okReturn (tabsAction env) := by
  simp only [tabsAction]
  exact okReturn_of_ex (exists_sw_join _ (by decide))

theorem newTabAction_ok (env : BrowserEnv) (kw : KW) :
    okReturn (newTabAction env kw) := by
  simp only [newTabAction]
  repeat' split
  all_goals exact okReturn_of_ex (by (repeat (apply exists_sw_mono)); decide)

theorem switchTabAction_ok (env : BrowserEnv) (kw : KW) :
    okReturn (switchTabAction env kw) := by
  simp only [switchTabAction]
  repeat' split
  all_goals exact okReturn_of_ex (by (repeat (apply exists_sw_mono)); decide)

theorem closeTabAction_ok (env : BrowserEnv) (kw : KW) :
    okReturn (closeTabAction env kw) := by
  simp only [closeTabAction]
  repeat' split
  all_goals exact okReturn_of_ex (by (repeat (apply exists_sw_mono)); decide)

theorem hoverAction_ok (env : BrowserEnv) (kw : KW) :
    okReturn (hoverAction env kw) := by
  simp only [hoverAction]
  repeat' split
  all_goals exact okReturn_of_ex (by (repeat (apply exists_sw_mono)); decide)

theorem scrollAction_ok (env : BrowserEnv) (kw : KW) :
    okReturn (scrollAction env kw) := by
  simp only [scrollAction]
  repeat' split
  all_goals exact okReturn_of_ex (by (repeat (apply exists_sw_mono)); decide)

theorem resizeAction_ok (env : BrowserEnv) (kw : KW) :
    okReturn (resizeAction env kw) := by
  simp only [resizeAction]
  repeat' split
  all_goals exact okReturn_of_ex (by (repeat (apply exists_sw_mono)); decide)

theorem evaluateAction_ok (env : BrowserEnv) (kw : KW) :
    okReturn (evaluateAction env kw) := by
  simp only [evaluateAction]
  repeat' split
  all_goals exact okReturn_of_ex (by (repeat (apply exists_sw_mono)); decide)

theorem cookiesAction_ok (env : BrowserEnv) : okReturn (cookiesAction env) := by
  simp only [cookiesAction]
  repeat' split
  all_goals exact okReturn_of_ex (by (repeat (first | apply exists_sw_mono | apply exists_sw_join)); decide)

theorem storageAction_ok (env : BrowserEnv) (kw : KW) :
    okReturn (storageAction env kw) := by
  simp only [storageAction]
  repeat' split
  all_goals first
    | exact okReturn_storage _ _
    | exact okReturn_of_ex (by (repeat (apply exists_sw_mono)); decide)

theorem waitAction_ok (env : BrowserEnv) (kw : KW) :
    okReturn (waitAction env kw) := by
  simp only [waitAction]
  repeat' split
  all_goals exact okReturn_of_ex (by (repeat (apply exists_sw_mono)); decide)

theorem consoleAction_ok (env : BrowserEnv) : okReturn (consoleAction env) := by
  simp only [consoleAction]
  repeat' split
  all_goals exact okReturn_of_ex (by (repeat (first | apply exists_sw_mono | apply exists_sw_join)); decide)

theorem errorsAction_ok (env : BrowserEnv) : okReturn (errorsAction env) := by
  simp only [errorsAction]
  repeat' split
  all_goals exact okReturn_of_ex (by (repeat (first | apply exists_sw_mono | apply exists_sw_join)); decide)

theorem downloadAction_ok (env : BrowserEnv) (kw : KW) :
    okReturn (downloadAction env kw) := by
  simp only [downloadAction]
  repeat' split
  all_goals exact okReturn_of_ex (by (repeat (apply exists_sw_mono)); decide)

theorem uploadAction_ok (env : BrowserEnv) (kw : KW) :
    okReturn (uploadAction env kw) := by
  simp only [uploadAction]
  repeat' split
  all_goals exact okReturn_of_ex (by (repeat (apply exists_sw_mono)); decide)

theorem traceAction_ok (env : BrowserEnv) (kw : KW) :
    okReturn (traceAction env kw) := by
  simp only [traceAction]
  repeat' split
  all_goals exact okReturn_of_ex (by (repeat (apply exists_sw_mono)); decide)

theorem screenshotAction_ok (env : BrowserEnv) : okReturn (screenshotAction env) := by
  simp only [screenshotAction]
  repeat' split
  all_goals exact okReturn_of_ex (by (repeat (apply exists_sw_mono)); decide)

theorem getTextAction_ok (env : BrowserEnv) : okReturn (getTextAction env) := by
  simp only [getTextAction]
  exact okReturn_of_ex (exists_sw_mono _ (by decide))

theorem actAction_ok (env : BrowserEnv) (kw : KW) :
    okReturn (actAction env kw) := by
  simp only [actAction]
  repeat' split
  all_goals first
    | exact actOn_ok _ _
    | exact okReturn_of_ex (by (repeat (apply exists_sw_mono)); decide)

theorem clickAction_ok (env : BrowserEnv) (kw : KW) :
    okReturn (clickAction env kw) := by
  simp only [clickAction]
  repeat' split
  all_goals exact okReturn_of_ex (by (repeat (apply exists_sw_mono)); decide)

theorem typeAction_ok (env : BrowserEnv) (kw : KW) :
    okReturn (typeAction env kw) := by
  simp only [typeAction]
  repeat' split
  all_goals exact okReturn_of_ex (by (repeat (apply exists_sw_mono)); decide)

set_option maxHeartbeats 2000000 in
/-- C7 (amended): for every environment, action and argument record, the
string returned by BrowserTool.execute either starts with one of the fixed
literal prefixes [VERIFIED], [FAILED], [ERROR], Error:, Unknown action:,
[BROWSER RUNNING], [BROWSER OFFLINE], [PROFILES], [TABS], [RESULT], [COOKIES],
[CONSOLE], [ERRORS], [PAGE ERRORS], [PAGE CONTENT], [PAGE SNAPSHOT,
Screenshot saved to, [OK], [OFFLINE], Browser disconnected, or is the
dynamically-headed storage listing starting with the bracketed upper-cased
storage type followed by STORAGE].  The original claim, that every return
begins with [VERIFIED], [FAILED] or [ERROR], is refuted by
c7_browser_result_prefixes_counterexample. -/
theorem c7_browser_result_prefixes (env : BrowserEnv) (action : String) (kw : KW) :
    okReturn (BrowserTool.execute env action kw) := by
  simp only [BrowserTool.execute]
  repeat' split
  all_goals first
    | exact startAction_ok _
    | exact stopAction_ok _
    | exact statusAction_ok _
    | exact profilesAction_ok _
    | exact navigateAction_ok _ _
    | exact searchAction_ok _ _
    | exact pressAction_ok _
    | exact tabsAction_ok _
    | exact newTabAction_ok _ _
    | exact switchTabAction_ok _ _
    | exact closeTabAction_ok _ _
    | exact hoverAction_ok _ _
    | exact scrollAction_ok _ _
    | exact resizeAction_ok _ _
    | exact evaluateAction_ok _ _
    | exact cookiesAction_ok _
    | exact storageAction_ok _ _
    | exact waitAction_ok _ _
    | exact consoleAction_ok _
    | exact errorsAction_ok _
    | exact downloadAction_ok _ _
    | exact uploadAction_ok _ _
    | exact traceAction_ok _ _
    | exact screenshotAction_ok _
    | exact getTextAction_ok _
    | exact snapshotAction_ok _
    | exact actAction_ok _ _
    | exact clickAction_ok _ _
    | exact typeAction_ok _ _
    | exact okReturn_of_ex (by (repeat (apply exists_sw_mono)); decide)

def c7Env : BrowserEnv := { screenshotRes := { success := true } }

/-- C7, counterexample to the claimed [VERIFIED]/[FAILED]/[ERROR] prefixing:
a successful screenshot returns a string starting with none of the three. -/
theorem c7_browser_result_prefixes_counterexample :
    BrowserTool.execute c7Env "screenshot" {} =
      "Screenshot saved to /ws/screenshots/screenshot_20260101_000000.png" ∧
    c7Env.screenshotRes.success = true ∧
    pyStartsWith "[VERIFIED]" (BrowserTool.execute c7Env "screenshot" {}) = false ∧
    pyStartsWith "[FAILED]" (BrowserTool.execute c7Env "screenshot" {}) = false ∧
    pyStartsWith "[ERROR]" (BrowserTool.execute c7Env "screenshot" {}) = false := by
  decide

/-- C8: two tool-call argument dictionaries that are equal as key-value maps
(a permutation of the same duplicate-free keyed items) serialize to the same
canonical JSON string under the sorted-key rendering, so the two calls have
the same call key and compare equal for loop detection. -/
theorem c8_canonical_args_stable (name : String) (kvs₁ kvs₂ : List (String × JsonVal))
    (hp : kvs₁.Perm kvs₂) (hnd : (kvs₁.map Prod.fst).Nodup) :
    dumps (.obj kvs₁) = dumps (.obj kvs₂) ∧
      callKeyOf name (.obj kvs₁) = callKeyOf name (.obj kvs₂) ∧
      ∀ history, trackToolCall history name (.obj kvs₁) = trackToolCall history name (.obj kvs₂) := by
  have h := dumps_obj_eq_of_perm hp hnd
  refine ⟨h, ?_, ?_⟩
  · rw [callKeyOf, callKeyOf, h]
  · intro history
    rw [trackToolCall, trackToolCall]
    simp only [callKeyOf, h]

/-- Witness for C8 at two concrete two-entry dictionaries differing only in
insertion order. -/
theorem c8_canonical_args_stable_witness :
    (([("b", JsonVal.num 1), ("a", JsonVal.str "x")]).map Prod.fst).Nodup ∧
      dumps (.obj [("b", JsonVal.num 1), ("a", JsonVal.str "x")]) =
        dumps (.obj [("a", JsonVal.str "x"), ("b", JsonVal.num 1)]) :=
  ⟨by decide,
    (c8_canonical_args_stable "web_search" _ _
      (List.Perm.swap ("a", JsonVal.str "x") ("b", JsonVal.num 1) []) (by decide)).1⟩

end Nanobot
